import Mathlib

/-!
# TransferLens: verification of the temporal data plane and ML pipeline

This development shallowly embeds the core operations of the TransferLens
backend (a transfer-intelligence system with a bitemporal signal store,
candidate generation, feature building, training, scoring and a
what-changed detector) and proves or refutes the behavioural claims made
about them.

Modelling conventions:
* timestamps and dates are integers (the code compares `datetime` values,
  which form a linear order; day/microsecond granularity is irrelevant to
  the properties proved here);
* SQL numeric values and Python floats are embedded as rationals, with
  Python `round` modelled as exact half-even rounding on rationals;
* `ORDER BY RANDOM()` draws are modelled by an explicit ordering parameter
  (a function reordering the candidate pool) supplied to the embedded
  function, since the database RNG is not seeded by the code;
* SQL result-set order without an ORDER BY is modelled as store order.
-/

namespace TransferLens

/-! ## Generic list helpers -/

/-- Remove duplicates keeping the first occurrence of each element
(models SQL DISTINCT and Python set insertion, read in store order). -/
def dedupFirst {α : Type} [DecidableEq α] : List α → List α
  | [] => []
  | x :: xs => x :: (dedupFirst xs).filter (fun y => y ≠ x)

/-- Insert `x` into `l`, passing over elements that must come strictly
before it.  Used to build a stable sort. -/
def insOrd {α : Type} (before : α → α → Bool) (x : α) : List α → List α
  | [] => [x]
  | y :: ys => if before y x then y :: insOrd before x ys else x :: y :: ys

/-- Stable sort: `before a b = true` when `a` must come strictly before
`b`; elements unordered by `before` keep their original relative order
(models Python sorted / list.sort, which are stable). -/
def stableSortBy {α : Type} (before : α → α → Bool) (l : List α) : List α :=
  l.foldr (insOrd before) []

theorem mem_insOrd {α : Type} (before : α → α → Bool) (x : α) (l : List α) (z : α) :
    z ∈ insOrd before x l ↔ z = x ∨ z ∈ l := by
  induction l with
  | nil => simp [insOrd]
  | cons y ys ih =>
      by_cases h : before y x = true
      · simp only [insOrd, h, if_true, List.mem_cons, ih]
        tauto
      · simp only [insOrd, h, if_false, Bool.false_eq_true, List.mem_cons]

theorem mem_stableSortBy {α : Type} (before : α → α → Bool) (l : List α) (z : α) :
    z ∈ stableSortBy before l ↔ z ∈ l := by
  induction l with
  | nil => simp [stableSortBy]
  | cons y ys ih =>
      simp only [stableSortBy, List.foldr_cons] at *
      rw [mem_insOrd]
      simp [ih]

theorem mem_dedupFirst {α : Type} [DecidableEq α] (l : List α) (z : α) :
    z ∈ dedupFirst l ↔ z ∈ l := by
  induction l with
  | nil => simp [dedupFirst]
  | cons x xs ih =>
      simp only [dedupFirst, List.mem_cons, List.mem_filter, ih]
      constructor
      · rintro (rfl | ⟨h, _⟩)
        · exact Or.inl rfl
        · exact Or.inr h
      · rintro (rfl | h)
        · exact Or.inl rfl
        · by_cases hx : z = x
          · exact Or.inl hx
          · exact Or.inr ⟨h, by simpa using hx⟩

/-! ## Python rounding on exact rationals -/

/-- Round a rational to the nearest integer, ties to even
(the rounding used by Python round). -/
def halfEvenInt (q : ℚ) : ℤ :=
  if q - ⌊q⌋ < 1/2 then ⌊q⌋
  else if 1/2 < q - ⌊q⌋ then ⌊q⌋ + 1
  else if ⌊q⌋ % 2 = 0 then ⌊q⌋ else ⌊q⌋ + 1

/-- Python round(q, d) on exact rationals. -/
def pyRound (d : ℕ) (q : ℚ) : ℚ :=
  ((halfEvenInt (q * 10 ^ d) : ℚ)) / 10 ^ d

theorem abs_halfEvenInt_sub (q : ℚ) : |(halfEvenInt q : ℚ) - q| ≤ 1/2 := by
  unfold halfEvenInt
  have h0 : (0 : ℚ) ≤ q - ⌊q⌋ := by
    have := Int.floor_le q
    linarith
  have h1 : q - ⌊q⌋ < 1 := by
    have := Int.lt_floor_add_one q
    linarith
  split_ifs with hlt hgt hev
  · rw [abs_le]; constructor <;> linarith
  · rw [abs_le]; push_cast; constructor <;> linarith
  · rw [abs_le]; constructor <;> linarith
  · rw [abs_le]; push_cast; constructor <;> linarith

theorem halfEvenInt_nonneg (q : ℚ) (hq : 0 ≤ q) : 0 ≤ halfEvenInt q := by
  unfold halfEvenInt
  have hf : (0 : ℤ) ≤ ⌊q⌋ := Int.floor_nonneg.2 hq
  split_ifs <;> omega

theorem pyRound_nonneg (d : ℕ) (q : ℚ) (hq : 0 ≤ q) : 0 ≤ pyRound d q := by
  unfold pyRound
  have h1 : (0 : ℚ) ≤ (halfEvenInt (q * 10 ^ d) : ℚ) := by
    have := halfEvenInt_nonneg (q * 10 ^ d) (by positivity)
    exact_mod_cast this
  positivity

theorem pyRound_le (d : ℕ) (q : ℚ) : pyRound d q ≤ q + 1 / (2 * 10 ^ d) := by
  have hb := abs_halfEvenInt_sub (q * 10 ^ d)
  rw [abs_le] at hb
  have hpow : (0 : ℚ) < 10 ^ d := by positivity
  unfold pyRound
  rw [div_le_iff₀ hpow]
  have : (q + 1 / (2 * 10 ^ d)) * 10 ^ d = q * 10 ^ d + 1/2 := by
    field_simp
    ring
  rw [this]
  linarith [hb.2]

theorem pyRound_ge (d : ℕ) (q : ℚ) : q - 1 / (2 * 10 ^ d) ≤ pyRound d q := by
  have hb := abs_halfEvenInt_sub (q * 10 ^ d)
  rw [abs_le] at hb
  have hpow : (0 : ℚ) < 10 ^ d := by positivity
  unfold pyRound
  rw [le_div_iff₀ hpow]
  have : (q - 1 / (2 * 10 ^ d)) * 10 ^ d = q * 10 ^ d - 1/2 := by
    field_simp
    ring
  rw [this]
  linarith [hb.1]

/-! ## The bitemporal signal store (`signal_events`) -/

/-- One row of the `signal_events` table. -/
structure SignalRow where
  entityType : String
  playerId : Option Nat
  clubId : Option Nat
  signalType : String
  valueNum : Option ℚ
  valueText : Option String
  valueJson : Option String
  observedAt : Int
  effectiveFrom : Int
  effectiveTo : Option Int
deriving DecidableEq

/-- The three time-travel conditions used by every strict read:
observed_at <= as_of, effective_from <= as_of and
(effective_to IS NULL OR effective_to > as_of). -/
def passesAsOf (asOf : Int) (r : SignalRow) : Bool :=
  decide (r.observedAt ≤ asOf) && decide (r.effectiveFrom ≤ asOf) &&
    (match r.effectiveTo with
     | none => true
     | some e => decide (asOf < e))

/-- The WHERE clause of `get_signal_value_strict`, per entity_type branch
(`time_guards.py`).  SQL equality with a NULL bind parameter matches no
row, hence the `Option` matches for the pair branch. -/
def strictFilter (entityType : String) (entityId : Option Nat) (signalType : String)
    (asOf : Int) (playerId clubId : Option Nat) (r : SignalRow) : Bool :=
  if entityType = "player" then
    (match entityId with
     | some e => decide (r.playerId = some e)
     | none => false)
      && decide (r.signalType = signalType) && passesAsOf asOf r
  else if entityType = "club" then
    (match entityId with
     | some e => decide (r.clubId = some e)
     | none => false)
      && decide (r.signalType = signalType) && passesAsOf asOf r
  else if entityType = "pair" then
    (match playerId, clubId with
     | some p, some c => decide (r.playerId = some p) && decide (r.clubId = some c)
     | _, _ => false)
      && decide (r.signalType = signalType) && passesAsOf asOf r
  else false

/-- `b` wins over `a` under ORDER BY effective_from DESC, observed_at DESC. -/
def laterLex (a b : SignalRow) : Bool :=
  decide (a.effectiveFrom < b.effectiveFrom) ||
    (decide (a.effectiveFrom = b.effectiveFrom) && decide (a.observedAt < b.observedAt))

/-- `a` is at or before `b` in (effective_from, observed_at) lexicographic
order. -/
def lexLe (a b : SignalRow) : Prop :=
  a.effectiveFrom < b.effectiveFrom ∨
    (a.effectiveFrom = b.effectiveFrom ∧ a.observedAt ≤ b.observedAt)

theorem laterLex_false_iff (a b : SignalRow) : laterLex a b = false ↔ lexLe b a := by
  unfold laterLex lexLe
  simp only [Bool.or_eq_false_iff, Bool.and_eq_false_iff, decide_eq_false_iff_not]
  constructor
  · rintro ⟨h1, h2 | h2⟩
    · omega
    · omega
  · intro h
    rcases h with h | ⟨h1, h2⟩
    · exact ⟨by omega, Or.inl (by omega)⟩
    · constructor
      · omega
      · by_cases he : a.effectiveFrom = b.effectiveFrom
        · exact Or.inr (by omega)
        · exact Or.inl (by omega)

theorem lexLe_trans {a b c : SignalRow} (h1 : lexLe a b) (h2 : lexLe b c) : lexLe a c := by
  unfold lexLe at *
  rcases h1 with h1 | ⟨h1, h1o⟩ <;> rcases h2 with h2 | ⟨h2, h2o⟩
  · exact Or.inl (by omega)
  · exact Or.inl (by omega)
  · exact Or.inl (by omega)
  · exact Or.inr ⟨by omega, by omega⟩

/-- Fold realising ORDER BY effective_from DESC, observed_at DESC LIMIT 1
over a result set: keep the best row seen so far. -/
def bestRow (a : SignalRow) (l : List SignalRow) : SignalRow :=
  l.foldl (fun acc r => if laterLex acc r then r else acc) a

/-- The single row selected by the strict query, if any. -/
def selectLatest : List SignalRow → Option SignalRow
  | [] => none
  | x :: xs => some (bestRow x xs)

theorem bestRow_mem (a : SignalRow) (l : List SignalRow) : bestRow a l ∈ a :: l := by
  induction l generalizing a with
  | nil => simp [bestRow]
  | cons y ys ih =>
      unfold bestRow
      simp only [List.foldl_cons]
      by_cases h : laterLex a y = true
      · simp only [h, if_pos rfl]
        have := ih y
        simp only [bestRow] at this
        simp only [List.mem_cons] at this ⊢
        tauto
      · simp only [Bool.not_eq_true] at h
        simp only [h]
        have := ih a
        simp only [bestRow] at this
        simp only [List.mem_cons] at this ⊢
        tauto

theorem bestRow_maximal (a : SignalRow) (l : List SignalRow) :
    ∀ r ∈ a :: l, lexLe r (bestRow a l) := by
  induction l generalizing a with
  | nil =>
      intro r hr
      simp only [List.mem_cons, List.not_mem_nil, or_false] at hr
      subst hr
      exact Or.inr ⟨rfl, le_refl _⟩
  | cons y ys ih =>
      intro r hr
      unfold bestRow
      simp only [List.foldl_cons]
      by_cases h : laterLex a y = true
      · have step : lexLe a y := by
          unfold laterLex at h
          unfold lexLe
          simp only [Bool.or_eq_true, Bool.and_eq_true, decide_eq_true_eq] at h
          rcases h with h | ⟨h1, h2⟩
          · exact Or.inl h
          · exact Or.inr ⟨h1, le_of_lt h2⟩
        simp only [h, if_pos rfl]
        have hbest := ih y
        simp only [bestRow] at hbest
        simp only [List.mem_cons] at hr
        rcases hr with rfl | hr
        · exact lexLe_trans step (hbest y (by simp))
        · rcases hr with rfl | hr
          · exact hbest r (by simp)
          · exact hbest r (by simp [hr])
      · simp only [Bool.not_eq_true] at h
        simp only [h]
        have step : lexLe y a := (laterLex_false_iff a y).1 h
        have hbest := ih a
        simp only [bestRow] at hbest
        simp only [List.mem_cons] at hr
        rcases hr with rfl | hr
        · exact hbest r (by simp)
        · rcases hr with rfl | hr
          · exact lexLe_trans step (hbest a (by simp))
          · exact hbest r (by simp [hr])

theorem selectLatest_mem {l : List SignalRow} {s : SignalRow}
    (h : selectLatest l = some s) : s ∈ l := by
  cases l with
  | nil => simp [selectLatest] at h
  | cons x xs =>
      simp only [selectLatest, Option.some.injEq] at h
      subst h
      exact bestRow_mem x xs

theorem selectLatest_maximal {l : List SignalRow} {s : SignalRow}
    (h : selectLatest l = some s) : ∀ r ∈ l, lexLe r s := by
  cases l with
  | nil => simp [selectLatest] at h
  | cons x xs =>
      simp only [selectLatest, Option.some.injEq] at h
      subst h
      exact fun r hr => bestRow_maximal x xs r hr

theorem selectLatest_none_iff (l : List SignalRow) : selectLatest l = none ↔ l = [] := by
  cases l <;> simp [selectLatest]

/-- Embedding of `get_signal_value_strict` (`time_guards.py`): filter the
store by the entity/type predicate and the three time-travel conditions,
take the row maximising (effective_from, observed_at), and return its
value_num (returns none when value_num is NULL, mirroring
`if result and result.value_num is not None`). -/
def getSignalValueStrict (rows : List SignalRow) (entityType : String)
    (entityId : Option Nat) (signalType : String) (asOf : Int)
    (playerId clubId : Option Nat) : Option ℚ :=
  if entityType = "player" ∨ entityType = "club" ∨ entityType = "pair" then
    match selectLatest (rows.filter (strictFilter entityType entityId signalType asOf playerId clubId)) with
    | none => none
    | some r => r.valueNum
  else none

/-! ## HTTP signal-history read (`routers/players.py`, get_player_signals) -/

/-- The WHERE clause of the signal-history endpoint: player match,
entity_type player, optionally effective_from <= as_of and a signal_type
filter.  Note that the endpoint does not filter on observed_at. -/
def playerSignalsFilter (pid : Nat) (asOf : Option Int) (signalTypeF : Option String)
    (r : SignalRow) : Bool :=
  decide (r.playerId = some pid) && decide (r.entityType = "player") &&
    (match asOf with
     | none => true
     | some t => decide (r.effectiveFrom ≤ t)) &&
    (match signalTypeF with
     | none => true
     | some st => decide (r.signalType = st))

/-- Embedding of GET /players/(id)/signals: filter, ORDER BY
effective_from DESC, LIMIT `lim` (rows equal on effective_from keep store
order, a refinement of the unspecified SQL tie order). -/
def getPlayerSignals (rows : List SignalRow) (pid : Nat) (asOf : Option Int)
    (signalTypeF : Option String) (lim : Nat) : List SignalRow :=
  (stableSortBy (fun a b => decide (b.effectiveFrom < a.effectiveFrom))
    (rows.filter (playerSignalsFilter pid asOf signalTypeF))).take lim

/-! ## Time-travel validators (`time_guards.py`) -/

/-- Embedding of `validate_signal_time_travel`: raises
TimeTravelViolation when observed_at > as_of or effective_from > as_of. -/
def validateSignalTimeTravel (observedAt effectiveFrom asOf : Int)
    (signalType entityId : String) : Except String Unit :=
  if observedAt > asOf then
    Except.error ("TimeTravelViolation: signal observed_at is after as_of for " ++ signalType ++ " " ++ entityId)
  else if effectiveFrom > asOf then
    Except.error ("TimeTravelViolation: signal effective_from is after as_of for " ++ signalType ++ " " ++ entityId)
  else
    Except.ok ()

/-- Embedding of `validate_training_label_time_travel`: raises DataLeakage
when feature_date >= transfer_date; the horizon argument is accepted but,
as in the code, not used by the check. -/
def validateTrainingLabelTimeTravel (transferDate featureDate : Int)
    (horizonDays : Int) (playerId : String) : Except String Unit :=
  if featureDate ≥ transferDate then
    Except.error ("DataLeakage: feature date is at or after transfer date for player " ++ playerId)
  else
    Except.ok ()

/-! ## Signal derivation from user events (`jobs/signals.py`) -/

/-- One row of the `user_events` table. -/
structure UserEvent where
  playerId : Option Nat
  clubId : Option Nat
  sessionId : String
  eventType : String
  occurredAt : Int
deriving DecidableEq

/-- The WHERE clause of the attention-velocity aggregation: a user event
with a player, one of the three attention event types, inside
[window_start, as_of]. -/
def attentionQualifies (windowStart asOf : Int) (e : UserEvent) : Bool :=
  decide (e.playerId ≠ none) &&
    (decide (e.eventType = "player_view") || decide (e.eventType = "watchlist_add")
      || decide (e.eventType = "share")) &&
    decide (windowStart ≤ e.occurredAt) && decide (e.occurredAt ≤ asOf)

/-- One output row of `compute_attention_velocity`.  `olderViews` stores
the value after the `or 1` substitution performed by the code. -/
structure VelocityEntry where
  playerId : Nat
  velocity : ℤ
  recentViews : Nat
  olderViews : Nat
  totalViews : Nat
deriving DecidableEq

/-- The per-player body of `compute_attention_velocity`: group the
qualifying events of player `p` (skipped under three events, the SQL
HAVING clause), count the recent half with occurred_at >= midpoint and
the older half with occurred_at < midpoint; the Python post-processing
replaces an older count of 0 by 1 (`older_views or 1`), computes
min(10, (recent+1)/(older+1)) and stores int(velocity * 100).  The
midpoint as_of - window/2 uses integer division (timestamps are integral
in this model). -/
def attentionEntry (events : List UserEvent) (window : Int) (asOf : Int)
    (p : Nat) : Option VelocityEntry :=
  let windowStart := asOf - window
  let midpoint := asOf - window / 2
  let evs := (events.filter (attentionQualifies windowStart asOf)).filter
    (fun e => decide (e.playerId = some p))
  let total := evs.length
  if 3 ≤ total then
    let recent := (evs.filter (fun e => decide (midpoint ≤ e.occurredAt))).length
    let olderRaw := (evs.filter (fun e => decide (e.occurredAt < midpoint))).length
    let older := if olderRaw = 0 then 1 else olderRaw
    let velocity : ℚ := min 10 (((recent : ℚ) + 1) / ((older : ℚ) + 1))
    some { playerId := p, velocity := ⌊velocity * 100⌋, recentViews := recent,
           olderViews := older, totalViews := total }
  else none

/-- Embedding of `compute_attention_velocity` (`jobs/signals.py`): one
entry per distinct player among the qualifying events, via
`attentionEntry`. -/
def computeAttentionVelocity (events : List UserEvent) (window : Int) (asOf : Int) :
    List VelocityEntry :=
  (dedupFirst ((events.filter (attentionQualifies (asOf - window) asOf)).filterMap
      (fun e => e.playerId))).filterMap (attentionEntry events window asOf)

/-- The attention-signal writing step of `run_signal_derivation`: one
signal row per velocity entry, with source tl_user_derived and
observed_at = effective_from = as_of. -/
def deriveAttentionRows (events : List UserEvent) (window : Int) (asOf : Int) :
    List SignalRow :=
  (computeAttentionVelocity events window asOf).map (fun v =>
    { entityType := "player", playerId := some v.playerId, clubId := none,
      signalType := "user_attention_velocity", valueNum := some (v.velocity : ℚ),
      valueText := none, valueJson := none,
      observedAt := asOf, effectiveFrom := asOf, effectiveTo := none })

/-- Transcription of the claimed formula for the attention velocity of
one player (used only to compare the claim against the code): recent
counts the events in the half-open interval (T - W/2, T], older counts
the closed interval [T - W, T - W/2]; players with fewer than 3 events
are skipped; the value is min(10, (recent+1)/(older+1)) x 100 as an
integer. -/
def claimAttentionValue (events : List UserEvent) (window : Int) (asOf : Int)
    (p : Nat) : Option ℤ :=
  let windowStart := asOf - window
  let midpoint := asOf - window / 2
  let qualifies := fun (e : UserEvent) =>
    decide (e.playerId = some p) &&
      (decide (e.eventType = "player_view") || decide (e.eventType = "watchlist_add")
        || decide (e.eventType = "share"))
  let recent := (events.filter (fun e =>
    qualifies e && decide (midpoint < e.occurredAt) && decide (e.occurredAt ≤ asOf))).length
  let older := (events.filter (fun e =>
    qualifies e && decide (windowStart ≤ e.occurredAt) && decide (e.occurredAt ≤ midpoint))).length
  if recent + older < 3 then none
  else some ⌊(min 10 (((recent : ℚ) + 1) / ((older : ℚ) + 1))) * 100⌋

/-! ## What-changed detector (`app/services.py`) -/

/-- A polymorphic signal value: value_num, value_text or value_json. -/
inductive SigVal where
  | num (q : ℚ)
  | text (s : String)
  | json (s : String)
deriving DecidableEq

/-- `_get_signal_value`: value_num, else value_text, else value_json. -/
def getSigVal (r : SignalRow) : Option SigVal :=
  match r.valueNum with
  | some q => some (SigVal.num q)
  | none =>
    match r.valueText with
    | some s => some (SigVal.text s)
    | none =>
      match r.valueJson with
      | some s => some (SigVal.json s)
      | none => none

/-- Python float(old_val) if old_val else 0 wrapped in
try/except (ValueError, TypeError): numbers pass through, falsy values
(0, empty text, empty json) give 0, other text/json raises, which the
code turns into None.  Text holding a numeric literal is not modelled;
only status strings occur for the text-valued signal types. -/
def sigValToNum : SigVal → Option ℚ
  | SigVal.num q => some q
  | SigVal.text s => if s = "" then some 0 else none
  | SigVal.json s => if s = "" then some 0 else none

/-- One entry of CHANGE_THRESHOLDS: the optional trigger fields and the
severity mapping (`sevNum` for the numeric branches, `sevAny` for the
any_change branch, which receives the raw values). -/
structure ChangeConfig where
  threshold : Option ℚ
  percentChange : Option ℚ
  anyChange : Bool
  absoluteChange : Option ℚ
  sevNum : ℚ → ℚ → String
  sevAny : SigVal → SigVal → String

/-- A threshold entry with no trigger fields set and info severities. -/
def emptyChangeConfig : ChangeConfig :=
  { threshold := none, percentChange := none, anyChange := false,
    absoluteChange := none, sevNum := fun _ _ => "info", sevAny := fun _ _ => "info" }

/-- Embedding of the CHANGE_THRESHOLDS table of `app/services.py`. -/
def changeThresholds (st : String) : Option ChangeConfig :=
  if st = "contract_months_remaining" then
    some { emptyChangeConfig with
           threshold := some 6,
           sevNum := fun _ new => if new ≤ 6 then "alert" else "warning" }
  else if st = "market_value" then
    some { emptyChangeConfig with
           percentChange := some 10,
           sevNum := fun old new => if 20 < |(new - old) / old * 100| then "alert" else "warning" }
  else if st = "injuries_status" then
    some { emptyChangeConfig with
           anyChange := true,
           sevAny := fun _ new => if new ≠ SigVal.text "fit" then "alert" else "info" }
  else if st = "social_mention_velocity" then
    some { emptyChangeConfig with
           percentChange := some 50,
           sevNum := fun old new => if old * 2 < new then "alert" else "warning" }
  else if st = "user_attention_velocity" then
    some { emptyChangeConfig with
           percentChange := some 100,
           sevNum := fun old new => if old * 3 < new then "alert" else "warning" }
  else if st = "goals_last_10" then
    some { emptyChangeConfig with absoluteChange := some 2 }
  else if st = "assists_last_10" then
    some { emptyChangeConfig with absoluteChange := some 2 }
  else if st = "club_league_position" then
    some { emptyChangeConfig with
           absoluteChange := some 3,
           sevNum := fun old new => if 5 ≤ |new - old| then "warning" else "info" }
  else none

/-- A detected signal delta (schema SignalDelta). -/
structure SignalDelta where
  signalType : String
  description : String
  oldValue : Option SigVal
  newValue : Option SigVal
  changePercent : Option ℚ
  severity : String
  observedAt : Int
deriving DecidableEq

/-- Render a signal value in a description string.  Exact for text
values (the only ones a proved statement depends on); numeric rendering
of non-integral rationals is a placeholder for Python string formatting. -/
def showSigVal : SigVal → String
  | SigVal.num q => if q.den = 1 then toString q.num else toString q
  | SigVal.text s => s
  | SigVal.json s => s

/-- Render a rational with one decimal digit (approximates Python .1f
formatting; used only inside description strings). -/
def showTenths (q : ℚ) : String :=
  toString (⌊q * 10 + 1/2⌋ / 10) ++ "." ++ toString ((⌊q * 10 + 1/2⌋ % 10).natAbs)

/-- Embedding of `_format_change_description`. -/
def formatChangeDescription (st : String) (oldVal newVal : SigVal) : String :=
  if st = "contract_months_remaining" then
    "Contract down to " ++ showSigVal newVal ++ " months remaining"
  else if st = "market_value" then
    (match sigValToNum oldVal, sigValToNum newVal with
     | some o, some n =>
       "Market value " ++ (if o < n then "up" else "down") ++ " to EUR " ++
         showTenths (n / 1000000) ++ "M"
     | _, _ => "Market value changed")
  else if st = "injuries_status" then
    "Injury status changed to: " ++ showSigVal newVal
  else if st = "social_mention_velocity" then
    "Social media velocity spiked to " ++ showSigVal newVal
  else if st = "user_attention_velocity" then
    "User attention increased to " ++ showSigVal newVal
  else if st = "goals_last_10" then
    "Goals in last 10 games: " ++ showSigVal oldVal ++ " to " ++ showSigVal newVal
  else if st = "assists_last_10" then
    "Assists in last 10 games: " ++ showSigVal oldVal ++ " to " ++ showSigVal newVal
  else
    st ++ ": " ++ showSigVal oldVal ++ " to " ++ showSigVal newVal

/-- Embedding of `_detect_delta`: given the oldest and newest signal of a
type within the window, apply the threshold table.  The four trigger
checks are attempted in source order (any_change, threshold crossing,
percent change, absolute change). -/
def detectDelta (st : String) (oldS newS : SignalRow) : Option SignalDelta :=
  match changeThresholds st with
  | none => none
  | some config =>
    match getSigVal oldS, getSigVal newS with
    | some oldVal, some newVal =>
      if config.anyChange then
        if oldVal ≠ newVal then
          some { signalType := st,
                 description := formatChangeDescription st oldVal newVal,
                 oldValue := some oldVal, newValue := some newVal,
                 changePercent := none,
                 severity := config.sevAny oldVal newVal,
                 observedAt := newS.observedAt }
        else none
      else
        match sigValToNum oldVal, sigValToNum newVal with
        | some oldN, some newN =>
          let thresholdHit :=
            match config.threshold with
            | some th => decide (th < oldN) && decide (newN ≤ th)
            | none => false
          if thresholdHit then
            some { signalType := st,
                   description := formatChangeDescription st oldVal newVal,
                   oldValue := some oldVal, newValue := some newVal,
                   changePercent := none,
                   severity := config.sevNum oldN newN,
                   observedAt := newS.observedAt }
          else
            let pctHit :=
              match config.percentChange with
              | some pc => decide (oldN ≠ 0) && decide (pc ≤ |(newN - oldN) / oldN * 100|)
              | none => false
            if pctHit then
              some { signalType := st,
                     description := formatChangeDescription st oldVal newVal,
                     oldValue := some oldVal, newValue := some newVal,
                     changePercent := some (pyRound 1 |(newN - oldN) / oldN * 100|),
                     severity := config.sevNum oldN newN,
                     observedAt := newS.observedAt }
            else
              let absHit :=
                match config.absoluteChange with
                | some ac => decide (ac ≤ |newN - oldN|)
                | none => false
              if absHit then
                some { signalType := st,
                       description := formatChangeDescription st oldVal newVal,
                       oldValue := some oldVal, newValue := some newVal,
                       changePercent := none,
                       severity := config.sevNum oldN newN,
                       observedAt := newS.observedAt }
              else none
        | _, _ => none
    | _, _ => none

/-- Severity order used by the final sort: alert before warning before
info. -/
def sevRank (s : String) : Nat :=
  if s = "alert" then 0 else if s = "warning" then 1 else if s = "info" then 2 else 3

/-- Embedding of `get_what_changed`: select the player signals whose
effective_from is inside the window, group them by signal_type (ordered
by signal_type, effective_from), emit a delta per type with at least two
rows, add an alert for a lone non-fit injuries_status row, sort by
severity then observed_at descending and keep the first ten. -/
def getWhatChanged (signals : List SignalRow) (pid : Nat) (cutoff : Int) :
    List SignalDelta :=
  let inWindow := signals.filter (fun r =>
    decide (r.playerId = some pid) && decide (r.entityType = "player") &&
      decide (cutoff ≤ r.effectiveFrom))
  let sorted := stableSortBy (fun a b =>
    decide (a.signalType < b.signalType) ||
      (decide (a.signalType = b.signalType) && decide (a.effectiveFrom < b.effectiveFrom)))
    inWindow
  let types := dedupFirst (sorted.map (fun r => r.signalType))
  let deltas1 := types.filterMap (fun t =>
    let group := sorted.filter (fun r => decide (r.signalType = t))
    if 2 ≤ group.length then
      match group.head?, group.getLast? with
      | some oldest, some newest => detectDelta t oldest newest
      | _, _ => none
    else none)
  let deltas2 := types.filterMap (fun t =>
    let group := sorted.filter (fun r => decide (r.signalType = t))
    if group.length = 1 ∧ t = "injuries_status" then
      match group.head? with
      | some s =>
        (match s.valueText with
         | some v =>
           if v ≠ "" ∧ v ≠ "fit" then
             some { signalType := t,
                    description := "New injury status: " ++ v,
                    oldValue := none, newValue := some (SigVal.text v),
                    changePercent := none, severity := "alert",
                    observedAt := s.observedAt }
           else none
         | none => none)
      | none => none
    else none)
  (stableSortBy (fun a b =>
      decide (sevRank a.severity < sevRank b.severity) ||
        (decide (sevRank a.severity = sevRank b.severity) &&
          decide (b.observedAt < a.observedAt)))
    (deltas1 ++ deltas2)).take 10

/-! ## Model training (`jobs/train.py`) -/

/-- The fields of a `model_versions` row relevant to the registration
claims. -/
structure ModelVersionRow where
  modelName : String
  modelVersion : String
  horizonDays : Int
  trainingSamples : Nat
  status : String
deriving DecidableEq

/-- Embedding of `register_model_version`: inserts one row with the given
status (the only call site relies on the default value completed). -/
def registerModelVersion (modelName modelVersion : String) (horizonDays : Int)
    (trainingSamples : Nat) (status : String) : ModelVersionRow :=
  { modelName := modelName, modelVersion := modelVersion,
    horizonDays := horizonDays, trainingSamples := trainingSamples,
    status := status }

/-- The run_model_train result dictionary (status and error fields). -/
structure TrainOutcome where
  status : String
  errorMsg : Option String
deriving DecidableEq

/-- Embedding of the control flow of `run_model_train`: when the training
frame has fewer rows than the configured minimum the function returns a
failed result with a message and registers nothing; otherwise the
fitting/evaluation/persist steps run (their internals, external to the
claim, are abstracted by `stepsSucceed`: the try/except marks the result
failed and registers nothing when any of them raises) and on success
exactly one ModelVersion row is registered through
`register_model_version` with the default status completed. -/
def runModelTrain {α : Type} (df : List α) (minTrainingSamples : Nat)
    (modelName modelVersion : String) (horizonDays : Int)
    (stepsSucceed : Bool) : TrainOutcome × List ModelVersionRow :=
  if df.length < minTrainingSamples then
    ({ status := "failed", errorMsg := some "Insufficient training data" }, [])
  else if stepsSucceed then
    ({ status := "completed", errorMsg := none },
     [registerModelVersion modelName modelVersion horizonDays df.length "completed"])
  else
    ({ status := "failed", errorMsg := some "training step raised" }, [])

/-! ## Prediction generation (`jobs/predict.py`) -/

/-- The feature values read in feature order by
`compute_driver_contributions` (missing or None becomes 0, mirroring
feature_values.get(name, 0) or 0). -/
def driverValues (featureValues : List (String × Option ℚ))
    (featureNames : List String) : List ℚ :=
  featureNames.map (fun n =>
    match featureValues.lookup n with
    | some (some q) => q
    | some none => 0
    | none => 0)

/-- The positive products importance x normalized value, rounded to four
decimals. -/
def driverCandidates (featureImportances : List (String × ℚ))
    (featureNames : List String) (normalized : List ℚ) : List (String × ℚ) :=
  (featureNames.zip normalized).filterMap (fun p =>
    if 0 < ((featureImportances.lookup p.1).getD 0) * p.2 then
      some (p.1, pyRound 4 (((featureImportances.lookup p.1).getD 0) * p.2))
    else none)

/-- The top-n rounded contributions sorted by value descending
(stable). -/
def driverTop (featureImportances : List (String × ℚ)) (featureNames : List String)
    (normalized : List ℚ) (topN : Nat) : List (String × ℚ) :=
  (stableSortBy (fun a b => decide (b.2 < a.2))
    (driverCandidates featureImportances featureNames normalized)).take topN

/-- Embedding of `compute_driver_contributions`: read the feature values
in feature order (missing or None becomes 0), min-max normalise them
(all 0.5 when max = min; the numpy reduction of an empty array raises,
so the empty-name case returns nothing), keep the positive products
importance x normalized rounded to four decimals, sort by value
descending (stable), keep the top `topN`, and if their sum is positive
renormalise each share to the total, again rounding to four decimals. -/
def computeDriverContributions (featureValues : List (String × Option ℚ))
    (featureNames : List String) (featureImportances : List (String × ℚ))
    (topN : Nat) : List (String × ℚ) :=
  let values := driverValues featureValues featureNames
  match values.max?, values.min? with
  | some vmax, some vmin =>
    let normalized :=
      if vmax ≠ vmin then values.map (fun v => (v - vmin) / (vmax - vmin))
      else values.map (fun _ => (1 : ℚ)/2)
    let sortedDrivers := driverTop featureImportances featureNames normalized topN
    let total := (sortedDrivers.map (fun p => p.2)).sum
    if 0 < total then sortedDrivers.map (fun p => (p.1, pyRound 4 (p.2 / total)))
    else sortedDrivers
  | _, _ => []

/-- Truthiness of an optional numeric feature
(features.get returning None or 0 is falsy). -/
def featureTruthy (v : Option ℚ) : Bool :=
  match v with
  | some q => decide (q ≠ 0)
  | none => false

/-- `features.get(key, default) or default`: None and 0 fall back. -/
def featureOrDefault (v : Option ℚ) (default : ℚ) : ℚ :=
  match v with
  | some q => if q = 0 then default else q
  | none => default

/-- Embedding of the dummy-prediction branch of `run_predictions` (no
trained model): base 0.1, plus 0.3 when contract months < 12, else 0.15
when < 24, plus 0.05 for same league, plus a uniform noise draw in
[-0.05, 0.05] (the np.random.uniform value is the `noise` parameter),
capped at 0.95. -/
def heuristicProbability (contractMonthsF marketValueF sameLeagueF : Option ℚ)
    (noise : ℚ) : ℚ :=
  let contractMonths := featureOrDefault contractMonthsF 24
  let _marketValue := featureOrDefault marketValueF 50000000
  let base1 : ℚ := 1/10
  let base2 :=
    if contractMonths < 12 then base1 + 3/10
    else if contractMonths < 24 then base1 + 3/20
    else base1
  let base3 := if featureTruthy sameLeagueF then base2 + 1/20 else base2
  min (19/20) (base3 + noise)

/-- The persisted fields of a `prediction_snapshots` row used by the
invariant claims. -/
structure PredictionRow where
  playerId : Nat
  fromClubId : Option Nat
  toClubId : Option Nat
  horizonDays : Int
  probability : ℚ
  drivers : List (String × ℚ)
  asOf : Int
  windowStart : Int
  windowEnd : Int
deriving DecidableEq

/-- The CHECK constraints declared on prediction_snapshots in
`app/models.py`: probability in [0, 1], horizon_days > 0,
window_end > window_start.  The database rejects any insert violating
them, so every persisted row satisfies this predicate. -/
def predictionRowChecks (r : PredictionRow) : Prop :=
  0 ≤ r.probability ∧ r.probability ≤ 1 ∧ 0 < r.horizonDays ∧
    r.windowStart < r.windowEnd

/-- The snapshot built by one iteration of `run_predictions` on the
heuristic (no-model) path: probability rounded to four decimals,
drivers from `compute_driver_contributions` with top_n = 5,
window_start = as_of date and window_end = as_of date + horizon. -/
def mkHeuristicSnapshot (playerId : Nat) (fromClubId : Option Nat) (toClubId : Nat)
    (horizonDays : Int) (asOfDate : Int)
    (features : List (String × Option ℚ))
    (featureImportances : List (String × ℚ)) (noise : ℚ) : PredictionRow :=
  { playerId := playerId, fromClubId := fromClubId, toClubId := some toClubId,
    horizonDays := horizonDays,
    probability := pyRound 4 (heuristicProbability
      (features.lookup "contract_months_remaining" |>.getD none)
      (features.lookup "market_value" |>.getD none)
      (features.lookup "same_league" |>.getD none) noise),
    drivers := computeDriverContributions features (features.map (fun p => p.1))
      featureImportances 5,
    asOf := asOfDate, windowStart := asOfDate, windowEnd := asOfDate + horizonDays }

/-! ## Reference data and the relational store -/

/-- A `competitions` row. -/
structure Competition where
  id : Nat
  name : String
  country : String
  tier : Int
deriving DecidableEq

/-- A `clubs` row. -/
structure Club where
  id : Nat
  name : String
  country : String
  competitionId : Option Nat
  isActive : Bool
deriving DecidableEq

/-- A `players` row. -/
structure PlayerRec where
  id : Nat
  name : String
  position : Option String
  dateOfBirth : Option Int
  currentClubId : Option Nat
  isActive : Bool
deriving DecidableEq

/-- The relational store: list order models the scan order the database
returns for queries without an ORDER BY. -/
structure Store where
  competitions : List Competition
  clubs : List Club
  players : List PlayerRec
  signals : List SignalRow

/-- The competition joined to a club (inner join: none when the club has
no competition or the id dangles). -/
def compOf (s : Store) (c : Club) : Option Competition :=
  match c.competitionId with
  | none => none
  | some cid => s.competitions.find? (fun comp => decide (comp.id = cid))

/-! ## Feature builder (`jobs/features.py`) -/

/-- The ordinal position encoding of `build_player_features`. -/
def positionEncoded (pos : Option String) : ℚ :=
  match pos with
  | none => 0
  | some p =>
    if p = "ST" then 1 else if p = "LW" then 2 else if p = "RW" then 3
    else if p = "CAM" then 4 else if p = "CM" then 5 else if p = "CDM" then 6
    else if p = "CB" then 7 else if p = "LB" then 8 else if p = "RB" then 9
    else if p = "GK" then 10 else 0

/-- A built feature vector: ordered keys with nullable values, as stored
in feature_snapshots.features. -/
abbrev FeatureVec := List (String × Option ℚ)

/-- Embedding of `build_player_features`: age from date of birth
((as_of.date() - dob).days / 365.25, dates being integral days here),
the position encoding, and the seven player signals read through
`get_signal_value_strict`. -/
def buildPlayerFeatures (s : Store) (playerId : Nat) (asOf : Int) : FeatureVec :=
  match s.players.find? (fun p => decide (p.id = playerId)) with
  | none => []
  | some p =>
    [("age", p.dateOfBirth.map (fun dob => ((asOf - dob : ℤ) : ℚ) / (1461/4))),
     ("position_encoded", some (positionEncoded p.position))] ++
    (["market_value", "contract_months_remaining", "goals_last_10",
      "assists_last_10", "minutes_last_5", "social_mention_velocity",
      "user_attention_velocity"].map (fun st =>
        (st, getSignalValueStrict s.signals "player" (some playerId) st asOf none none)))

/-- Embedding of `build_club_features`: the competition tier (missing or
zero becomes 1 via Python `or 1`; None when the club row is absent) and
the three club signals. -/
def buildClubFeatures (s : Store) (clubId : Nat) (asOf : Int) : FeatureVec :=
  let tier : Option ℚ :=
    match s.clubs.find? (fun c => decide (c.id = clubId)) with
    | none => none
    | some c =>
      match (compOf s c).map (fun comp => comp.tier) with
      | some t => if t = 0 then some 1 else some (t : ℚ)
      | none => some 1
  [("club_tier", tier)] ++
  (["club_league_position", "club_points_per_game", "club_net_spend_12m"].map
    (fun st => (st, getSignalValueStrict s.signals "club" (some clubId) st asOf none none)))

/-- Embedding of `build_pair_features`: same_country, same_league and
tier_difference from the two club rows (all None when either club row is
missing), plus the pair cooccurrence signal. -/
def buildPairFeatures (s : Store) (playerId fromClubId toClubId : Nat) (asOf : Int) :
    FeatureVec :=
  let fromClub := s.clubs.find? (fun c => decide (c.id = fromClubId))
  let toClub := s.clubs.find? (fun c => decide (c.id = toClubId))
  let geo : FeatureVec :=
    match fromClub, toClub with
    | some f, some t =>
      let ftier := match (compOf s f).map (fun comp => comp.tier) with
        | some v => if v = 0 then 1 else v
        | none => 1
      let ttier := match (compOf s t).map (fun comp => comp.tier) with
        | some v => if v = 0 then 1 else v
        | none => 1
      [("same_country", some (if f.country = t.country then (1 : ℚ) else 0)),
       ("same_league", some (if f.competitionId = t.competitionId then (1 : ℚ) else 0)),
       ("tier_difference", some ((ttier - ftier : ℤ) : ℚ))]
    | _, _ =>
      [("same_country", none), ("same_league", none), ("tier_difference", none)]
  geo ++
  [("user_destination_cooccurrence",
    getSignalValueStrict s.signals "pair" none "user_destination_cooccurrence" asOf
      (some playerId) (some toClubId))]

/-- Embedding of `build_feature_vector`: player features, destination
club features prefixed to_, origin club features prefixed from_, pair
features (in code order). -/
def buildFeatureVector (s : Store) (playerId fromClubId toClubId : Nat) (asOf : Int) :
    FeatureVec :=
  buildPlayerFeatures s playerId asOf ++
  (buildClubFeatures s toClubId asOf).map (fun p => ("to_" ++ p.1, p.2)) ++
  (buildClubFeatures s fromClubId asOf).map (fun p => ("from_" ++ p.1, p.2)) ++
  buildPairFeatures s playerId fromClubId toClubId asOf

/-- The tier of the competition a club plays in. -/
def clubTier (s : Store) (c : Club) : Option Int :=
  (compOf s c).map (fun comp => comp.tier)

/-- Embedding of `get_candidate_clubs` (`jobs/features.py`), the candidate
sampler used by the bulk feature build.  `rngTierOne` and `rngFill` model
the two unseeded ORDER BY RANDOM() draws as arbitrary reorderings of the
respective pools.  The Python accumulator is a set; it is modelled as an
insertion-ordered deduplicated list. -/
def getCandidateClubs (s : Store) (playerId currentClubId : Nat) (asOf : Int)
    (maxCandidates : Nat) (rngTierOne rngFill : List Club → List Club) : List Nat :=
  let currentComp := (s.clubs.find? (fun c => decide (c.id = currentClubId))).bind
    (fun c => c.competitionId)
  let sameLeague :=
    match currentComp with
    | none => []
    | some comp =>
      ((s.clubs.filter (fun c =>
          decide (c.competitionId = some comp) && decide (c.id ≠ currentClubId)
            && c.isActive)).map (fun c => c.id)).take 5
  let otherPool :=
    match currentComp with
    | none => []
    | some comp =>
      s.clubs.filter (fun c =>
        decide (clubTier s c = some 1) && decide (c.id ≠ currentClubId) &&
          (match c.competitionId with
           | some k => decide (k ≠ comp)
           | none => false) && c.isActive)
  let other := ((rngTierOne otherPool).map (fun c => c.id)).take 8
  let attention := (dedupFirst ((s.signals.filter (fun r =>
      decide (r.playerId = some playerId) &&
        decide (r.signalType = "user_destination_cooccurrence") &&
        decide (r.effectiveFrom ≤ asOf) && decide (r.clubId ≠ none))).filterMap
      (fun r => r.clubId))).take 5
  let base := dedupFirst (sameLeague ++ other ++ attention)
  let withFill :=
    if base.length < maxCandidates then
      let remaining := maxCandidates - base.length
      let pool := s.clubs.filter (fun c =>
        decide (c.id ≠ currentClubId) && c.isActive && decide (c.id ∉ base))
      dedupFirst (base ++ ((rngFill pool).map (fun c => c.id)).take remaining)
    else base
  withFill.take maxCandidates

/-- Embedding of `run_feature_build`: for every active player with a
current club, sample candidates with `get_candidate_clubs` and upsert one
feature_snapshots row per candidate, keyed by
(player, candidate club, as_of). -/
def runFeatureBuild (s : Store) (asOf : Int) (maxCandidates : Nat)
    (rngTierOne rngFill : List Club → List Club) : List (Nat × Nat × FeatureVec) :=
  (s.players.filter (fun p => p.isActive && decide (p.currentClubId ≠ none))).flatMap
    (fun p =>
      match p.currentClubId with
      | none => []
      | some fromClub =>
        (getCandidateClubs s p.id fromClub asOf maxCandidates rngTierOne rngFill).map
          (fun toClub => (p.id, toClub, buildFeatureVector s p.id fromClub toClub asOf)))

/-! ## Candidate generation (`jobs/candidates.py`) -/

/-- ORDER BY effective_from DESC LIMIT 1, without the observed_at
tie-break (the form used by the inline COALESCE subqueries of the
candidate module); ties keep the first row in store order. -/
def latestByEffectiveFrom : List SignalRow → Option SignalRow
  | [] => none
  | x :: xs => some (xs.foldl (fun acc r =>
      if decide (acc.effectiveFrom < r.effectiveFrom) then r else acc) x)

/-- The COALESCE league-position subquery: latest club_league_position
with observed_at <= as_of and effective_from <= as_of, defaulting to 99
when there is no row or its value_num is NULL. -/
def leaguePositionAt (s : Store) (clubId : Nat) (asOf : Int) : ℚ :=
  match latestByEffectiveFrom (s.signals.filter (fun r =>
      decide (r.clubId = some clubId) && decide (r.signalType = "club_league_position")
        && decide (r.observedAt ≤ asOf) && decide (r.effectiveFrom ≤ asOf))) with
  | some r => r.valueNum.getD 99
  | none => 99

/-- The analogous inline subquery for an arbitrary player signal
(no COALESCE: None when absent). -/
def playerSignalSimple (s : Store) (playerId : Nat) (signalType : String)
    (asOf : Int) : Option ℚ :=
  (latestByEffectiveFrom (s.signals.filter (fun r =>
      decide (r.playerId = some playerId) && decide (r.signalType = signalType)
        && decide (r.observedAt ≤ asOf) && decide (r.effectiveFrom ≤ asOf)))).bind
    (fun r => r.valueNum)

/-- The analogous inline subquery for an arbitrary club signal. -/
def clubSignalSimple (s : Store) (clubId : Nat) (signalType : String)
    (asOf : Int) : Option ℚ :=
  (latestByEffectiveFrom (s.signals.filter (fun r =>
      decide (r.clubId = some clubId) && decide (r.signalType = signalType)
        && decide (r.observedAt ≤ asOf) && decide (r.effectiveFrom ≤ asOf)))).bind
    (fun r => r.valueNum)

/-- A scored candidate destination club. -/
structure CandidateClub where
  clubId : Nat
  source : String
  score : ℚ
  reason : String
deriving DecidableEq

/-- CandidateConfig with its defaults (`jobs/candidates.py`). -/
structure CandidateConfig where
  leagueTopN : Nat
  includeTop5Leagues : Bool
  socialMentionThreshold : ℚ
  socialMaxCandidates : Nat
  userCooccurrenceThreshold : ℚ
  userMaxCandidates : Nat
  constraintMaxCandidates : Nat
  wageAffordMult : ℚ
  feeAffordMult : ℚ
  randomCandidates : Nat
  maxTotalCandidates : Nat

/-- The default CandidateConfig values. -/
def defaultCandidateConfig : CandidateConfig :=
  { leagueTopN := 8, includeTop5Leagues := true,
    socialMentionThreshold := 2, socialMaxCandidates := 5,
    userCooccurrenceThreshold := 3, userMaxCandidates := 5,
    constraintMaxCandidates := 5, wageAffordMult := 3, feeAffordMult := 3/10,
    randomCandidates := 5, maxTotalCandidates := 20 }

/-- The five named top leagues. -/
def topFiveLeagues : List String :=
  ["Premier League", "La Liga", "Bundesliga", "Serie A", "Ligue 1"]

/-- Embedding of `get_league_candidates`: up to league_top_n same-league
clubs ranked by league position (missing treated as 99), scored
1 - position/20, plus up to ten top-6 clubs of the other named top-five
leagues scored 0.8 - position/30. -/
def getLeagueCandidates (s : Store) (playerId currentClubId : Nat) (asOf : Int)
    (config : CandidateConfig) : List CandidateClub :=
  match (s.clubs.find? (fun c => decide (c.id = currentClubId))).bind
      (fun c => compOf s c) with
  | none => []
  | some comp =>
    let sameLeague := s.clubs.filter (fun c =>
      decide (c.competitionId = some comp.id) && decide (c.id ≠ currentClubId)
        && c.isActive)
    let ranked := (stableSortBy (fun a b =>
      decide (leaguePositionAt s a.id asOf < leaguePositionAt s b.id asOf)) sameLeague).take
      config.leagueTopN
    let part1 := ranked.map (fun c =>
      { clubId := c.id, source := "league",
        score := 1 - leaguePositionAt s c.id asOf / 20,
        reason := "Top " ++ toString ⌊leaguePositionAt s c.id asOf⌋ ++ " in " ++ comp.name })
    let part2 :=
      if config.includeTop5Leagues then
        let pool := s.clubs.filter (fun c =>
          (match compOf s c with
           | some k => decide (k.name ∈ topFiveLeagues) && decide (c.competitionId ≠ some comp.id)
           | none => false) &&
          decide (c.id ≠ currentClubId) && c.isActive &&
          decide (leaguePositionAt s c.id asOf ≤ 6))
        let rankedO := (stableSortBy (fun a b =>
          decide (leaguePositionAt s a.id asOf < leaguePositionAt s b.id asOf)) pool).take 10
        rankedO.map (fun c =>
          { clubId := c.id, source := "league",
            score := 4/5 - leaguePositionAt s c.id asOf / 30,
            reason := "Top " ++ toString ⌊leaguePositionAt s c.id asOf⌋ ++ " in " ++
              (((compOf s c).map (fun k => k.name)).getD "") })
      else []
    part1 ++ part2

/-- Shared shape of the social and user-attention sources: DISTINCT ON
(club_id) keeps, for every distinct club (in club_id order), the row with
the greatest effective_from among those passing the WHERE clause
(player, the given signal type, club not null and not the current club,
observed_at and effective_from at or before as_of, value_num at or above
the threshold). -/
def pairSignalLatestPerClub (s : Store) (playerId currentClubId : Nat)
    (signalType : String) (asOf : Int) (threshold : ℚ) : List SignalRow :=
  let rows := s.signals.filter (fun r =>
    decide (r.playerId = some playerId) && decide (r.signalType = signalType) &&
      decide (r.clubId ≠ none) && decide (r.clubId ≠ some currentClubId) &&
      decide (r.observedAt ≤ asOf) && decide (r.effectiveFrom ≤ asOf) &&
      (match r.valueNum with
       | some v => decide (threshold ≤ v)
       | none => false))
  let clubIds := stableSortBy (fun a b => decide (a < b)) (dedupFirst (rows.filterMap (fun r => r.clubId)))
  clubIds.filterMap (fun cid =>
    latestByEffectiveFrom (rows.filter (fun r => decide (r.clubId = some cid))))

/-- Embedding of `get_social_candidates`: the per-club latest
social_mention_velocity rows above the threshold, sorted by velocity
descending, top social_max_candidates, scored min(velocity/10, 1). -/
def getSocialCandidates (s : Store) (playerId currentClubId : Nat) (asOf : Int)
    (config : CandidateConfig) : List CandidateClub :=
  let latest := pairSignalLatestPerClub s playerId currentClubId
    "social_mention_velocity" asOf config.socialMentionThreshold
  let sortedRows := stableSortBy (fun a b =>
    decide (b.valueNum.getD 0 < a.valueNum.getD 0)) latest
  (sortedRows.take config.socialMaxCandidates).map (fun r =>
    { clubId := r.clubId.getD 0, source := "social",
      score := min ((r.valueNum.getD 0) / 10) 1,
      reason := "Social co-mention velocity: " ++ showTenths (r.valueNum.getD 0) ++ "x" })

/-- Embedding of `get_user_attention_candidates`: the per-club latest
user_destination_cooccurrence rows above the threshold, sorted
descending, top user_max_candidates, scored min(score/100, 1). -/
def getUserAttentionCandidates (s : Store) (playerId currentClubId : Nat) (asOf : Int)
    (config : CandidateConfig) : List CandidateClub :=
  let latest := pairSignalLatestPerClub s playerId currentClubId
    "user_destination_cooccurrence" asOf config.userCooccurrenceThreshold
  let sortedRows := stableSortBy (fun a b =>
    decide (b.valueNum.getD 0 < a.valueNum.getD 0)) latest
  (sortedRows.take config.userMaxCandidates).map (fun r =>
    { clubId := r.clubId.getD 0, source := "user_attention",
      score := min ((r.valueNum.getD 0) / 100) 1,
      reason := "User attention cooccurrence: " ++ showTenths (r.valueNum.getD 0) })

/-- Whole years between two day-stamps (approximates the SQL
AGE/EXTRACT(YEAR ...) calendar computation at day granularity). -/
def yearsBetween (later earlier : Int) : Int :=
  (later - earlier) / 365

/-- Embedding of `get_constraint_fit_candidates`: score clubs in the top
two tiers by position need (squad counts and average age at the player
position), affordability against net spend, and a top-tier bonus; keep
scores above 0.3, sort descending and take the top
constraint_max_candidates, capping scores at 1. -/
def getConstraintFitCandidates (s : Store) (playerId currentClubId : Nat) (asOf : Int)
    (config : CandidateConfig) : List CandidateClub :=
  match s.players.find? (fun p => decide (p.id = playerId)) with
  | none => []
  | some player =>
    let playerValue := (playerSignalSimple s playerId "market_value" asOf).getD 0
    let _playerWage := (playerSignalSimple s playerId "wage_estimate" asOf).getD 50000
    let positionName := player.position.getD "None"
    let potential := s.clubs.filterMap (fun c =>
      match compOf s c with
      | some comp =>
        if decide (c.id ≠ currentClubId) && c.isActive && decide (comp.tier ≤ 2) then
          some (c, comp)
        else none
      | none => none)
    let scored := potential.filterMap (fun p =>
      let c := p.1
      let comp := p.2
      let netSpend := (clubSignalSimple s c.id "club_net_spend_12m" asOf).getD 0
      let samePos := fun (p2 : PlayerRec) =>
        decide (p2.currentClubId = some c.id) &&
          (match player.position with
           | some pos => decide (p2.position = some pos)
           | none => false) && p2.isActive
      let positionCount := (s.players.filter samePos).length
      let ages := (s.players.filter samePos).filterMap (fun p2 =>
        p2.dateOfBirth.map (fun dob => ((yearsBetween asOf dob : ℤ) : ℚ)))
      let avgAge : ℚ := if ages.length = 0 then 0 else ages.sum / ages.length
      let needScore : ℚ × List String :=
        if positionCount ≤ 2 then
          (2/5, ["Only " ++ toString positionCount ++ " " ++ positionName ++ "s"])
        else if positionCount ≤ 3 then
          (1/5, ["Few " ++ positionName ++ "s (" ++ toString positionCount ++ ")"])
        else (0, [])
      let ageScore : ℚ × List String :=
        if avgAge ≠ 0 ∧ 30 ≤ avgAge then
          (3/10, ["Aging " ++ positionName ++ "s (avg " ++ showTenths avgAge ++ ")"])
        else (0, [])
      let affordScore : ℚ × List String :=
        if 0 < netSpend then
          if playerValue ≤ netSpend * config.feeAffordMult then
            (3/10, ["Budget available (net spend EUR " ++ showTenths (netSpend / 1000000) ++ "M)"])
          else (0, [])
        else if |netSpend| < playerValue * 2 then
          (1/10, ["Within typical spend"])
        else (0, [])
      let tierScore : ℚ × List String :=
        if comp.tier = 1 then (1/10, ["Top tier club"]) else (0, [])
      let score := needScore.1 + ageScore.1 + affordScore.1 + tierScore.1
      let reasons := needScore.2 ++ ageScore.2 ++ affordScore.2 ++ tierScore.2
      if 3/10 < score ∧ reasons ≠ [] then
        some (c, score, String.intercalate "; " reasons)
      else none)
    let sortedC := stableSortBy (fun a b => decide (b.2.1 < a.2.1)) scored
    (sortedC.take config.constraintMaxCandidates).map (fun p =>
      { clubId := p.1.id, source := "constraint_fit", score := min p.2.1 1,
        reason := p.2.2 })

/-- Embedding of `get_random_candidates`: clubs of the top three tiers
other than the current club, in the unseeded ORDER BY RANDOM() order
modelled by `rng`, limited to random_candidates * 3, filtered against the
already-selected ids, limited to random_candidates, each scored 0.1. -/
def getRandomCandidates (s : Store) (playerId currentClubId : Nat)
    (existingIds : List Nat) (config : CandidateConfig)
    (rng : List Club → List Club) : List CandidateClub :=
  let pool := s.clubs.filter (fun c =>
    decide (c.id ≠ currentClubId) && c.isActive &&
      (match compOf s c with
       | some comp => decide (comp.tier ≤ 3)
       | none => false))
  let drawn := (rng pool).take (config.randomCandidates * 3)
  ((drawn.filter (fun c => decide (c.id ∉ existingIds))).take
      config.randomCandidates).map (fun c =>
    { clubId := c.id, source := "random", score := 1/10,
      reason := "Random calibration sample" })

/-- The first-source-wins deduplication of
`generate_candidates_for_player`: append the new candidates whose club is
not yet present. -/
def dedupeAdd (acc : List CandidateClub) (new : List CandidateClub) :
    List CandidateClub :=
  new.foldl (fun acc c =>
    if acc.any (fun a => decide (a.clubId = c.clubId)) then acc else acc ++ [c]) acc

/-- The deterministic part of the candidate pipeline: league, social,
user-attention and constraint-fit candidates, deduplicated in source
order. -/
def candidatesBeforeRandom (s : Store) (playerId currentClubId : Nat) (asOf : Int)
    (config : CandidateConfig) : List CandidateClub :=
  let l1 := dedupeAdd [] (getLeagueCandidates s playerId currentClubId asOf config)
  let l2 := dedupeAdd l1 (getSocialCandidates s playerId currentClubId asOf config)
  let l3 := dedupeAdd l2 (getUserAttentionCandidates s playerId currentClubId asOf config)
  dedupeAdd l3 (getConstraintFitCandidates s playerId currentClubId asOf config)

/-- All candidates including the random source (still in insertion
order). -/
def candidatesWithRandom (s : Store) (playerId currentClubId : Nat) (asOf : Int)
    (config : CandidateConfig) (rng : List Club → List Club) : List CandidateClub :=
  let l4 := candidatesBeforeRandom s playerId currentClubId asOf config
  dedupeAdd l4 (getRandomCandidates s playerId currentClubId
    (l4.map (fun c => c.clubId)) config rng)

/-- The player_context_json payload. -/
structure PlayerContext where
  name : String
  position : Option String
  club : Option String
  age : Option ℚ
  marketValue : Option ℚ
  contractMonthsRemaining : Option ℚ
deriving DecidableEq

/-- The candidate_sets payload produced for one player. -/
structure CandidateSetResult where
  playerId : Nat
  fromClubId : Nat
  horizonDays : Int
  totalCandidates : Nat
  candidates : List CandidateClub
  sourceCounts : List (String × Nat)
  playerContext : PlayerContext
deriving DecidableEq

/-- Embedding of `generate_candidates_for_player`: collect the five
sources with first-source-wins deduplication, sort by score descending
(stable) and truncate to max_total_candidates, then assemble the
player context (age rounded to one decimal; market value and contract
months read through `get_signal_value_strict`) and the per-source
counts.  Returns none when the player is missing or has no current club
(the error-dict path). -/
def generateCandidatesForPlayer (s : Store) (playerId : Nat) (asOf : Int)
    (horizonDays : Int) (config : CandidateConfig)
    (rng : List Club → List Club) : Option CandidateSetResult :=
  match s.players.find? (fun p => decide (p.id = playerId)) with
  | none => none
  | some player =>
    match player.currentClubId with
    | none => none
    | some currentClubId =>
      let all := candidatesWithRandom s playerId currentClubId asOf config rng
      let finalList := (stableSortBy (fun a b => decide (b.score < a.score)) all).take
        config.maxTotalCandidates
      let context : PlayerContext :=
        { name := player.name, position := player.position,
          club := (s.clubs.find? (fun c => decide (c.id = currentClubId))).map
            (fun c => c.name),
          age := player.dateOfBirth.map (fun dob =>
            pyRound 1 (((asOf - dob : ℤ) : ℚ) / (1461/4))),
          marketValue := getSignalValueStrict s.signals "player" (some playerId)
            "market_value" asOf none none,
          contractMonthsRemaining := getSignalValueStrict s.signals "player"
            (some playerId) "contract_months_remaining" asOf none none }
      let countOf := fun (src : String) =>
        (finalList.filter (fun c => decide (c.source = src))).length
      some { playerId := playerId, fromClubId := currentClubId,
             horizonDays := horizonDays, totalCandidates := finalList.length,
             candidates := finalList,
             sourceCounts :=
               [("league", countOf "league"), ("social", countOf "social"),
                ("user_attention", countOf "user_attention"),
                ("constraint_fit", countOf "constraint_fit"),
                ("random", countOf "random")],
             playerContext := context }

/-- A store with one active player at club 1 (a tier-2 competition of
its own) and two tier-1 clubs in another competition: the tier-one
ORDER BY RANDOM() pool of `get_candidate_clubs` has two elements and
max_candidates is reached after taking one of them, so the draw order
decides which club is built. -/
def demoFeatureStore : Store :=
  { competitions := [{ id := 10, name := "A", country := "X", tier := 2 },
                     { id := 20, name := "B", country := "Y", tier := 1 }],
    clubs := [{ id := 1, name := "C1", country := "X", competitionId := some 10,
                isActive := true },
              { id := 2, name := "C2", country := "Y", competitionId := some 20,
                isActive := true },
              { id := 3, name := "C3", country := "Y", competitionId := some 20,
                isActive := true }],
    players := [{ id := 1, name := "P1", position := none, dateOfBirth := none,
                  currentClubId := some 1, isActive := true }],
    signals := [] }

/-- A store where only the random candidate source fires: the player's
club sits alone in a tier-3 competition not named among the top five
leagues, and eight further tier-3 clubs fill the ORDER BY RANDOM()
pool. -/
def demoCandidateStore : Store :=
  { competitions := [{ id := 30, name := "X", country := "C", tier := 3 },
                     { id := 40, name := "Y", country := "C", tier := 3 }],
    clubs := [{ id := 1, name := "H", country := "C", competitionId := some 30,
                isActive := true },
              { id := 2, name := "K2", country := "C", competitionId := some 40,
                isActive := true },
              { id := 3, name := "K3", country := "C", competitionId := some 40,
                isActive := true },
              { id := 4, name := "K4", country := "C", competitionId := some 40,
                isActive := true },
              { id := 5, name := "K5", country := "C", competitionId := some 40,
                isActive := true },
              { id := 6, name := "K6", country := "C", competitionId := some 40,
                isActive := true },
              { id := 7, name := "K7", country := "C", competitionId := some 40,
                isActive := true },
              { id := 8, name := "K8", country := "C", competitionId := some 40,
                isActive := true },
              { id := 9, name := "K9", country := "C", competitionId := some 40,
                isActive := true }],
    players := [{ id := 1, name := "P", position := none, dateOfBirth := none,
                  currentClubId := some 1, isActive := true }],
    signals := [] }

/-! ## Supporting lemmas about the strict read -/

theorem passesAsOf_true_iff (T : Int) (r : SignalRow) :
    passesAsOf T r = true ↔
      (r.observedAt ≤ T ∧ r.effectiveFrom ≤ T ∧ ∀ e, r.effectiveTo = some e → T < e) := by
  unfold passesAsOf
  cases he : r.effectiveTo with
  | none => simp [he]
  | some e => simp [he, and_assoc]

theorem strictFilter_passes {et : String} {eid : Option Nat} {st : String} {T : Int}
    {pid cid : Option Nat} {r : SignalRow}
    (h : strictFilter et eid st T pid cid r = true) :
    r.observedAt ≤ T ∧ r.effectiveFrom ≤ T ∧ ∀ e, r.effectiveTo = some e → T < e := by
  unfold strictFilter at h
  split_ifs at h <;>
    (simp only [Bool.and_eq_true] at h
     exact (passesAsOf_true_iff T r).1 h.2)

theorem strictFilter_future {et : String} {eid : Option Nat} {st : String} {T : Int}
    {pid cid : Option Nat} {x : SignalRow} (hx : T < x.observedAt) :
    strictFilter et eid st T pid cid x = false := by
  have hp : passesAsOf T x = false := by
    unfold passesAsOf
    have : decide (x.observedAt ≤ T) = false := by simp; omega
    simp [this]
  unfold strictFilter
  split_ifs <;> simp [hp]

/-! ## C1 theorem -/

/-- C1: for every as-of time T, entity and signal_type,
`get_signal_value_strict` returns a value drawn only from rows with
observed_at <= T, effective_from <= T and effective_to null or > T,
choosing a row with the greatest effective_from among them; it returns
none when no qualifying row exists; and inserting a row with
observed_at > T anywhere in the store never changes the returned value. -/
theorem getSignalValueStrict_respects_timeTravel
    (rows : List SignalRow) (et : String) (eid : Option Nat) (st : String)
    (T : Int) (pid cid : Option Nat) :
    (∀ v, getSignalValueStrict rows et eid st T pid cid = some v →
      ∃ r ∈ rows, strictFilter et eid st T pid cid r = true ∧
        r.valueNum = some v ∧ r.observedAt ≤ T ∧ r.effectiveFrom ≤ T ∧
        (∀ e, r.effectiveTo = some e → T < e) ∧
        (∀ r2 ∈ rows, strictFilter et eid st T pid cid r2 = true →
          r2.effectiveFrom ≤ r.effectiveFrom)) ∧
    ((∀ r ∈ rows, strictFilter et eid st T pid cid r = false) →
      getSignalValueStrict rows et eid st T pid cid = none) ∧
    (∀ x l1 l2, rows = l1 ++ l2 → T < x.observedAt →
      getSignalValueStrict (l1 ++ x :: l2) et eid st T pid cid =
        getSignalValueStrict rows et eid st T pid cid) := by
  refine ⟨?_, ?_, ?_⟩
  · intro v hv
    unfold getSignalValueStrict at hv
    split_ifs at hv with hbranch
    · cases hsel : selectLatest (rows.filter (strictFilter et eid st T pid cid)) with
      | none => rw [hsel] at hv; simp at hv
      | some r =>
          rw [hsel] at hv
          simp only at hv
          have hmem := selectLatest_mem hsel
          rw [List.mem_filter] at hmem
          have htime := strictFilter_passes hmem.2
          refine ⟨r, hmem.1, hmem.2, hv, htime.1, htime.2.1, htime.2.2, ?_⟩
          intro r2 hr2 hf2
          have hmax := selectLatest_maximal hsel r2 (List.mem_filter.2 ⟨hr2, hf2⟩)
          rcases hmax with h | ⟨h, _⟩
          · exact le_of_lt h
          · exact le_of_eq h
  · intro hall
    unfold getSignalValueStrict
    split_ifs with hbranch
    · have : rows.filter (strictFilter et eid st T pid cid) = [] :=
        List.filter_eq_nil_iff.2 (fun a ha => by simp [hall a ha])
      rw [this]
      simp [selectLatest]
    · rfl
  · intro x l1 l2 hrows hx
    subst hrows
    have hfx := @strictFilter_future et eid st T pid cid x hx
    unfold getSignalValueStrict
    split_ifs with hbranch
    · rw [List.filter_append, List.filter_append, List.filter_cons, hfx]
      simp
    · rfl

/-- C1 witness: the spec scenario -- S1 observed and effective at time
10 with value 50000000, S2 observed at 20 (a correction not yet known at
T = 15) with the same effective_from; the read at T = 15 returns
50000000, and inserting the future-observed row leaves the result
unchanged. -/
theorem getSignalValueStrict_respects_timeTravel_witness :
    getSignalValueStrict
      [{ entityType := "player", playerId := some 7, clubId := none,
         signalType := "market_value", valueNum := some 50000000,
         valueText := none, valueJson := none,
         observedAt := 10, effectiveFrom := 10, effectiveTo := none },
       { entityType := "player", playerId := some 7, clubId := none,
         signalType := "market_value", valueNum := some 100000000,
         valueText := none, valueJson := none,
         observedAt := 20, effectiveFrom := 10, effectiveTo := none }]
      "player" (some 7) "market_value" 15 none none =
    getSignalValueStrict
      [{ entityType := "player", playerId := some 7, clubId := none,
         signalType := "market_value", valueNum := some 50000000,
         valueText := none, valueJson := none,
         observedAt := 10, effectiveFrom := 10, effectiveTo := none }]
      "player" (some 7) "market_value" 15 none none ∧
    getSignalValueStrict
      [{ entityType := "player", playerId := some 7, clubId := none,
         signalType := "market_value", valueNum := some 50000000,
         valueText := none, valueJson := none,
         observedAt := 10, effectiveFrom := 10, effectiveTo := none }]
      "player" (some 7) "market_value" 15 none none = some 50000000 := by
  constructor
  · exact (getSignalValueStrict_respects_timeTravel
      [{ entityType := "player", playerId := some 7, clubId := none,
         signalType := "market_value", valueNum := some 50000000,
         valueText := none, valueJson := none,
         observedAt := 10, effectiveFrom := 10, effectiveTo := none }]
      "player" (some 7) "market_value" 15 none none).2.2
      { entityType := "player", playerId := some 7, clubId := none,
        signalType := "market_value", valueNum := some 100000000,
        valueText := none, valueJson := none,
        observedAt := 20, effectiveFrom := 10, effectiveTo := none }
      [{ entityType := "player", playerId := some 7, clubId := none,
         signalType := "market_value", valueNum := some 50000000,
         valueText := none, valueJson := none,
         observedAt := 10, effectiveFrom := 10, effectiveTo := none }]
      [] rfl (by decide)
  · decide

/-! ## C10 theorem -/

/-- C10: when several rows pass the time-travel filters, the strict read
orders by effective_from descending then observed_at descending: the
selected row lexicographically dominates every qualifying row, and a
qualifying row that strictly dominates all others (such as a correction
sharing the greatest effective_from but carrying a later observed_at,
once observed by T) is the row whose value is returned. -/
theorem getSignalValueStrict_tiebreak_observedAt
    (rows : List SignalRow) (et : String) (eid : Option Nat) (st : String)
    (T : Int) (pid cid : Option Nat) :
    (∀ sRow, selectLatest (rows.filter (strictFilter et eid st T pid cid)) = some sRow →
      ∀ r ∈ rows, strictFilter et eid st T pid cid r = true →
        r.effectiveFrom < sRow.effectiveFrom ∨
          (r.effectiveFrom = sRow.effectiveFrom ∧ r.observedAt ≤ sRow.observedAt)) ∧
    (∀ m ∈ rows, strictFilter et eid st T pid cid m = true →
      (et = "player" ∨ et = "club" ∨ et = "pair") →
      (∀ r ∈ rows, strictFilter et eid st T pid cid r = true → r = m ∨
        r.effectiveFrom < m.effectiveFrom ∨
          (r.effectiveFrom = m.effectiveFrom ∧ r.observedAt < m.observedAt)) →
      getSignalValueStrict rows et eid st T pid cid = m.valueNum) := by
  constructor
  · intro sRow hsel r hr hf
    exact selectLatest_maximal hsel r (List.mem_filter.2 ⟨hr, hf⟩)
  · intro m hm hfm hbranch huniq
    have hmemf : m ∈ rows.filter (strictFilter et eid st T pid cid) :=
      List.mem_filter.2 ⟨hm, hfm⟩
    cases hsel : selectLatest (rows.filter (strictFilter et eid st T pid cid)) with
    | none =>
        rw [selectLatest_none_iff] at hsel
        rw [hsel] at hmemf
        simp at hmemf
    | some sRow =>
        have hsmem := selectLatest_mem hsel
        rw [List.mem_filter] at hsmem
        have hle : lexLe m sRow := selectLatest_maximal hsel m hmemf
        have : sRow = m := by
          rcases huniq sRow hsmem.1 hsmem.2 with h | h | ⟨h1, h2⟩
          · exact h
          · exfalso
            rcases hle with hl | ⟨hl, _⟩ <;> omega
          · exfalso
            rcases hle with hl | ⟨hl, hlo⟩ <;> omega
        subst this
        unfold getSignalValueStrict
        rw [if_pos hbranch, hsel]

/-- C10 witness: two rows share effective_from = 10 and pass the filters
at T = 25; the correction with observed_at = 20 (value 100000000) wins
over the original with observed_at = 10. -/
theorem getSignalValueStrict_tiebreak_observedAt_witness :
    getSignalValueStrict
      [{ entityType := "player", playerId := some 7, clubId := none,
         signalType := "market_value", valueNum := some 50000000,
         valueText := none, valueJson := none,
         observedAt := 10, effectiveFrom := 10, effectiveTo := none },
       { entityType := "player", playerId := some 7, clubId := none,
         signalType := "market_value", valueNum := some 100000000,
         valueText := none, valueJson := none,
         observedAt := 20, effectiveFrom := 10, effectiveTo := none }]
      "player" (some 7) "market_value" 25 none none = some 100000000 := by
  exact (getSignalValueStrict_tiebreak_observedAt
    [{ entityType := "player", playerId := some 7, clubId := none,
       signalType := "market_value", valueNum := some 50000000,
       valueText := none, valueJson := none,
       observedAt := 10, effectiveFrom := 10, effectiveTo := none },
     { entityType := "player", playerId := some 7, clubId := none,
       signalType := "market_value", valueNum := some 100000000,
       valueText := none, valueJson := none,
       observedAt := 20, effectiveFrom := 10, effectiveTo := none }]
    "player" (some 7) "market_value" 25 none none).2
    { entityType := "player", playerId := some 7, clubId := none,
      signalType := "market_value", valueNum := some 100000000,
      valueText := none, valueJson := none,
      observedAt := 20, effectiveFrom := 10, effectiveTo := none }
    (by decide) (by decide) (Or.inl rfl) (by decide)

/-! ## C3 theorem -/

/-- C3: `validate_training_label_time_travel` succeeds exactly when
feature_date < transfer_date; it raises DataLeakage when feature_date
equals or exceeds transfer_date, for every pair of datetimes and every
horizon. -/
theorem validateTrainingLabelTimeTravel_iff (transferDate featureDate horizonDays : Int)
    (playerId : String) :
    validateTrainingLabelTimeTravel transferDate featureDate horizonDays playerId =
      Except.ok () ↔ featureDate < transferDate := by
  unfold validateTrainingLabelTimeTravel
  split_ifs with h
  · simp
    omega
  · simp
    omega

/-! ## C2 theorems -/

/-- C2 (amended): every row returned by the signal-history endpoint with
as_of = T belongs to the store, is a player row of the requested player,
satisfies effective_from <= T and matches the optional signal_type
filter; the endpoint applies no observed_at filter (see the
counterexample). -/
theorem getPlayerSignals_asOf_filter
    (rows : List SignalRow) (pid : Nat) (T : Int) (stF : Option String)
    (lim : Nat) (r : SignalRow)
    (h : r ∈ getPlayerSignals rows pid (some T) stF lim) :
    r ∈ rows ∧ r.playerId = some pid ∧ r.entityType = "player" ∧
      r.effectiveFrom ≤ T ∧ (∀ st, stF = some st → r.signalType = st) := by
  unfold getPlayerSignals at h
  have h1 := List.mem_of_mem_take h
  rw [mem_stableSortBy, List.mem_filter] at h1
  refine ⟨h1.1, ?_⟩
  have h2 := h1.2
  unfold playerSignalsFilter at h2
  cases stF with
  | none =>
      simp only [Bool.and_eq_true, decide_eq_true_eq] at h2
      exact ⟨h2.1.1.1, h2.1.1.2, h2.1.2, by intro st hst; cases hst⟩
  | some st =>
      simp only [Bool.and_eq_true, decide_eq_true_eq] at h2
      refine ⟨h2.1.1.1, h2.1.1.2, h2.1.2, ?_⟩
      intro st2 hst2
      cases hst2
      exact h2.2

/-- C2 witness: a concrete read through the endpoint at as_of = 5
returning one row, which the theorem then certifies. -/
theorem getPlayerSignals_asOf_filter_witness :
    { entityType := "player", playerId := some 1, clubId := none,
      signalType := "market_value", valueNum := some 3,
      valueText := none, valueJson := none,
      observedAt := 2, effectiveFrom := 1, effectiveTo := none : SignalRow } ∈
      getPlayerSignals
        [{ entityType := "player", playerId := some 1, clubId := none,
           signalType := "market_value", valueNum := some 3,
           valueText := none, valueJson := none,
           observedAt := 2, effectiveFrom := 1, effectiveTo := none }]
        1 (some 5) none 100 ∧
    ({ entityType := "player", playerId := some 1, clubId := none,
       signalType := "market_value", valueNum := some 3,
       valueText := none, valueJson := none,
       observedAt := 2, effectiveFrom := 1, effectiveTo := none : SignalRow }).effectiveFrom ≤ 5 :=
  ⟨by decide,
   (getPlayerSignals_asOf_filter
     [{ entityType := "player", playerId := some 1, clubId := none,
        signalType := "market_value", valueNum := some 3,
        valueText := none, valueJson := none,
        observedAt := 2, effectiveFrom := 1, effectiveTo := none }]
     1 5 none 100
     { entityType := "player", playerId := some 1, clubId := none,
       signalType := "market_value", valueNum := some 3,
       valueText := none, valueJson := none,
       observedAt := 2, effectiveFrom := 1, effectiveTo := none }
     (by decide)).2.2.2.1⟩

/-- C2 counterexample: a row observed only at time 10 (after T = 5) but
effective from time 0 is returned by the endpoint at as_of = 5, so the
claim that every returned row also satisfies observed_at <= T is false
on the code. -/
theorem getPlayerSignals_returns_future_observed :
    ¬ (∀ r ∈ getPlayerSignals
        [{ entityType := "player", playerId := some 1, clubId := none,
           signalType := "market_value", valueNum := some 3,
           valueText := none, valueJson := none,
           observedAt := 10, effectiveFrom := 0, effectiveTo := none }]
        1 (some 5) none 100, r.observedAt ≤ 5) := by
  decide

/-! ## C6 theorems -/

/-- The recent-half count per player, structured as the nested filters of
`compute_attention_velocity`. -/
def attentionRecentCount (events : List UserEvent) (W T : Int) (p : Nat) : Nat :=
  (((events.filter (attentionQualifies (T - W) T)).filter
      (fun e => decide (e.playerId = some p))).filter
      (fun e => decide (T - W / 2 ≤ e.occurredAt))).length

/-- The older-half count per player (before the `or 1` substitution). -/
def attentionOlderCount (events : List UserEvent) (W T : Int) (p : Nat) : Nat :=
  (((events.filter (attentionQualifies (T - W) T)).filter
      (fun e => decide (e.playerId = some p))).filter
      (fun e => decide (e.occurredAt < T - W / 2))).length

/-- A player grouped by the aggregation with at least three qualifying
events in the window. -/
def attentionEligible (events : List UserEvent) (W T : Int) (p : Nat) : Bool :=
  decide (3 ≤ ((events.filter (attentionQualifies (T - W) T)).filter
      (fun e => decide (e.playerId = some p))).length)

theorem length_filter_split {α : Type} (m : List α) (q : α → Bool) :
    m.length = (m.filter q).length + (m.filter (fun a => !q a)).length := by
  induction m with
  | nil => simp
  | cons a as ih =>
      cases hq : q a <;> simp [List.filter_cons, hq, ih] <;> omega

theorem nodup_dedupFirst {α : Type} [DecidableEq α] (l : List α) :
    (dedupFirst l).Nodup := by
  induction l with
  | nil => simp [dedupFirst]
  | cons x xs ih =>
      rw [dedupFirst, List.nodup_cons]
      refine ⟨?_, ih.filter _⟩
      intro hx
      rw [List.mem_filter] at hx
      simp at hx

/-- Generic: mapping a key out of a filterMap whose outputs carry their
input as key preserves Nodup. -/
theorem nodup_filterMap_key {α β : Type} (l : List α) (f : α → Option β) (key : β → α)
    (hkey : ∀ a b, f a = some b → key b = a) (hl : l.Nodup) :
    ((l.filterMap f).map key).Nodup := by
  induction l with
  | nil => simp
  | cons a as ih =>
      rw [List.nodup_cons] at hl
      rw [List.filterMap_cons]
      cases hf : f a with
      | none => exact ih hl.2
      | some b =>
          rw [List.map_cons, List.nodup_cons]
          refine ⟨?_, ih hl.2⟩
          intro hmem
          rw [List.mem_map] at hmem
          obtain ⟨b2, hb2, hk⟩ := hmem
          rw [List.mem_filterMap] at hb2
          obtain ⟨a2, ha2, hf2⟩ := hb2
          rw [hkey a2 b2 hf2, hkey a b hf] at hk
          exact hl.1 (by rwa [hk] at ha2)

/-- The per-player body keeps the player it was called with. -/
theorem attentionEntry_playerId (events : List UserEvent) (W T : Int) (p : Nat)
    (v : VelocityEntry) (hf : attentionEntry events W T p = some v) :
    v.playerId = p := by
  simp only [attentionEntry] at hf
  split_ifs at hf <;>
    first
      | (injection hf with hf
         subst hf
         rfl)
      | cases hf

/-- Every velocity entry carries exactly the counts and the value the
code computes for its player. -/
theorem attentionEntry_spec (events : List UserEvent) (W T : Int) (p : Nat)
    (v : VelocityEntry) (hf : attentionEntry events W T p = some v) :
    attentionEligible events W T p = true ∧
    v.playerId = p ∧
    v.recentViews = attentionRecentCount events W T p ∧
    v.olderViews = (if attentionOlderCount events W T p = 0 then 1
                    else attentionOlderCount events W T p) ∧
    v.totalViews = attentionRecentCount events W T p +
      attentionOlderCount events W T p ∧
    v.velocity =
      ⌊(min 10 (((attentionRecentCount events W T p : ℚ) + 1) /
        (((if attentionOlderCount events W T p = 0 then 1
           else attentionOlderCount events W T p : ℕ) : ℚ) + 1))) * 100⌋ := by
  simp only [attentionEntry] at hf
  by_cases htot : 3 ≤ ((events.filter (attentionQualifies (T - W) T)).filter
      (fun e => decide (e.playerId = some p))).length
  · rw [if_pos htot] at hf
    injection hf with hf
    subst hf
    have hsplit := length_filter_split ((events.filter (attentionQualifies (T - W) T)).filter
      (fun e => decide (e.playerId = some p))) (fun e => decide (T - W / 2 ≤ e.occurredAt))
    have hnot : (((events.filter (attentionQualifies (T - W) T)).filter
        (fun e => decide (e.playerId = some p))).filter
          (fun e => !decide (T - W / 2 ≤ e.occurredAt))) =
        ((events.filter (attentionQualifies (T - W) T)).filter
          (fun e => decide (e.playerId = some p))).filter
          (fun e => decide (e.occurredAt < T - W / 2)) := by
      apply List.filter_congr
      intro e _
      by_cases he : T - W / 2 ≤ e.occurredAt <;> simp [he] <;> omega
    rw [hnot] at hsplit
    exact ⟨by simpa [attentionEligible] using htot, rfl, rfl, rfl, hsplit, rfl⟩
  · rw [if_neg htot] at hf
    cases hf

/-- Every eligible player yields an entry. -/
theorem computeAttentionVelocity_complete (events : List UserEvent) (W T : Int)
    (p : Nat) (hel : attentionEligible events W T p = true) :
    ∃ v ∈ computeAttentionVelocity events W T, v.playerId = p := by
  unfold computeAttentionVelocity
  unfold attentionEligible at hel
  simp only [decide_eq_true_eq] at hel
  have hpmem : p ∈ dedupFirst (((events.filter (attentionQualifies (T - W) T)).filterMap
      (fun e => e.playerId))) := by
    rw [mem_dedupFirst, List.mem_filterMap]
    have hne : ((events.filter (attentionQualifies (T - W) T)).filter
        (fun e => decide (e.playerId = some p))) ≠ [] := by
      intro hempty
      rw [hempty] at hel
      simp at hel
    obtain ⟨e, he⟩ := List.exists_mem_of_ne_nil _ hne
    rw [List.mem_filter] at he
    exact ⟨e, he.1, by simpa using he.2⟩
  have hsome : ∃ v, attentionEntry events W T p = some v := by
    simp only [attentionEntry]
    rw [if_pos hel]
    exact ⟨_, rfl⟩
  obtain ⟨v, hv⟩ := hsome
  exact ⟨v, List.mem_filterMap.2 ⟨p, hpmem, hv⟩,
    attentionEntry_playerId events W T p v hv⟩

/-- Distinct players produce distinct entries: the entry list carries no
duplicate player. -/
theorem computeAttentionVelocity_playerIds_nodup (events : List UserEvent) (W T : Int) :
    ((computeAttentionVelocity events W T).map (fun v => v.playerId)).Nodup := by
  unfold computeAttentionVelocity
  exact nodup_filterMap_key _ _ _ (attentionEntry_playerId events W T)
    (nodup_dedupFirst _)

/-- C6 (amended): for a window W ending at T, the derivation counts, per
player, recent = qualifying events in the closed interval [T - W/2, T]
and older = qualifying events in [T - W, T - W/2), skips the player when
recent + older < 3, and otherwise writes exactly one row (one per
eligible player, no duplicates) whose integer value is
int(min(10, (recent+1)/(older'+1)) * 100) where older' replaces an older
count of 0 by 1, with observed_at = effective_from = T. -/
theorem attentionDerivation_rows (events : List UserEvent) (W T : Int) :
    (∀ row ∈ deriveAttentionRows events W T,
      row.observedAt = T ∧ row.effectiveFrom = T ∧ row.entityType = "player" ∧
        row.signalType = "user_attention_velocity" ∧
        ∃ p, row.playerId = some p ∧
          3 ≤ attentionRecentCount events W T p + attentionOlderCount events W T p ∧
          row.valueNum = some
            ((⌊(min 10 (((attentionRecentCount events W T p : ℚ) + 1) /
              (((if attentionOlderCount events W T p = 0 then 1
                 else attentionOlderCount events W T p : ℕ) : ℚ) + 1))) * 100⌋ : ℤ) : ℚ)) ∧
    (∀ p, attentionEligible events W T p = true →
      ∃ row ∈ deriveAttentionRows events W T, row.playerId = some p) ∧
    ((deriveAttentionRows events W T).map (fun r => r.playerId)).Nodup := by
  refine ⟨?_, ?_, ?_⟩
  · intro row hrow
    unfold deriveAttentionRows at hrow
    rw [List.mem_map] at hrow
    obtain ⟨v, hv, hmk⟩ := hrow
    unfold computeAttentionVelocity at hv
    rw [List.mem_filterMap] at hv
    obtain ⟨p, _, hf⟩ := hv
    have hspec := attentionEntry_spec events W T p v hf
    subst hmk
    refine ⟨rfl, rfl, rfl, rfl, p, by rw [hspec.2.1], ?_, ?_⟩
    · have hel := hspec.1
      unfold attentionEligible at hel
      simp only [decide_eq_true_eq] at hel
      have hsplit := length_filter_split ((events.filter (attentionQualifies (T - W) T)).filter
        (fun e => decide (e.playerId = some p))) (fun e => decide (T - W / 2 ≤ e.occurredAt))
      have hnot : (((events.filter (attentionQualifies (T - W) T)).filter
          (fun e => decide (e.playerId = some p))).filter
            (fun e => !decide (T - W / 2 ≤ e.occurredAt))) =
          ((events.filter (attentionQualifies (T - W) T)).filter
            (fun e => decide (e.playerId = some p))).filter
            (fun e => decide (e.occurredAt < T - W / 2)) := by
        apply List.filter_congr
        intro e _
        by_cases he : T - W / 2 ≤ e.occurredAt <;> simp [he] <;> omega
      rw [hnot] at hsplit
      unfold attentionRecentCount attentionOlderCount
      omega
    · simp only [hspec.2.2.2.2.2]
  · intro p hel
    obtain ⟨v, hv, hvp⟩ := computeAttentionVelocity_complete events W T p hel
    refine ⟨_, List.mem_map.2 ⟨v, hv, rfl⟩, by rw [hvp]⟩
  · unfold deriveAttentionRows
    rw [List.map_map]
    have : ((fun r : SignalRow => r.playerId) ∘ (fun v : VelocityEntry =>
        ({ entityType := "player", playerId := some v.playerId, clubId := none,
           signalType := "user_attention_velocity", valueNum := some (v.velocity : ℚ),
           valueText := none, valueJson := none,
           observedAt := T, effectiveFrom := T, effectiveTo := none } : SignalRow))) =
        (fun v : VelocityEntry => some v.playerId) := rfl
    rw [this]
    have hmap : (computeAttentionVelocity events W T).map
        (fun v : VelocityEntry => some v.playerId) =
        ((computeAttentionVelocity events W T).map (fun v => v.playerId)).map some := by
      rw [List.map_map]
      rfl
    rw [hmap]
    exact (computeAttentionVelocity_playerIds_nodup events W T).map
      (fun a b h => Option.some.inj h)

/-- Three player_view events for player 1 at times 90, 91, 92: with
W = 40 and T = 100 all three fall in the recent half of the window. -/
def demoAttentionEvents : List UserEvent :=
  [{ playerId := some 1, clubId := none, sessionId := "s1",
     eventType := "player_view", occurredAt := 90 },
   { playerId := some 1, clubId := none, sessionId := "s2",
     eventType := "player_view", occurredAt := 91 },
   { playerId := some 1, clubId := none, sessionId := "s3",
     eventType := "player_view", occurredAt := 92 }]

/-- C6 witness: the demo events make player 1 eligible (three qualifying
events), so the derivation writes a row for them. -/
theorem attentionDerivation_rows_witness :
    attentionEligible demoAttentionEvents 40 100 1 = true ∧
    ∃ row ∈ deriveAttentionRows demoAttentionEvents 40 100, row.playerId = some 1 :=
  ⟨by decide,
   (attentionDerivation_rows demoAttentionEvents 40 100).2.1 1 (by decide)⟩

/-- C6 counterexample: for the demo events (recent = 3, older = 0) the
code substitutes older = 1 and writes value 200, while the claimed
formula min(10, (recent+1)/(older+1)) x 100 gives 400. -/
theorem attentionDerivation_value_counterexample :
    ((deriveAttentionRows demoAttentionEvents 40 100).map
      (fun r => r.valueNum)) = [some 200] ∧
    claimAttentionValue demoAttentionEvents 40 100 1 = some 400 ∧
    (some (200 : ℚ) ≠ some (400 : ℚ)) := by
  have h1 : attentionEntry demoAttentionEvents 40 100 1 =
      some { playerId := 1, velocity := 200, recentViews := 3,
             olderViews := 1, totalViews := 3 } := by
    norm_num +decide [attentionEntry, demoAttentionEvents, attentionQualifies, min_def,
      List.filter_cons, List.filter_nil]
  have h2 : dedupFirst ((demoAttentionEvents.filter
      (attentionQualifies (100 - 40) 100)).filterMap (fun e => e.playerId)) = [1] := by
    decide
  refine ⟨?_, ?_, by norm_num⟩
  · unfold deriveAttentionRows computeAttentionVelocity
    rw [h2, List.filterMap_cons, h1]
    norm_num
  · norm_num [claimAttentionValue, demoAttentionEvents, min_def]

/-! ## C7 theorems -/

/-- C7 (amended): in the what-changed detector, an injuries_status change
is classified by the NEW value: any change to a non-fit value (whether
the old value was fit or not) yields severity alert, and a change back
to fit yields severity info; with exactly one in-window injuries_status
row whose text value is non-empty and not fit, the result is exactly one
alert describing the new state. -/
theorem whatChanged_injuries (oldS newS : SignalRow) (oldV newV : SigVal)
    (hold : getSigVal oldS = some oldV) (hnew : getSigVal newS = some newV)
    (hne : oldV ≠ newV) :
    ((newV ≠ SigVal.text "fit" →
      detectDelta "injuries_status" oldS newS =
        some { signalType := "injuries_status",
               description := formatChangeDescription "injuries_status" oldV newV,
               oldValue := some oldV, newValue := some newV,
               changePercent := none, severity := "alert",
               observedAt := newS.observedAt }) ∧
    (newV = SigVal.text "fit" →
      detectDelta "injuries_status" oldS newS =
        some { signalType := "injuries_status",
               description := formatChangeDescription "injuries_status" oldV newV,
               oldValue := some oldV, newValue := some newV,
               changePercent := none, severity := "info",
               observedAt := newS.observedAt })) ∧
    (∀ (r : SignalRow) (pid : Nat) (cutoff : Int) (v : String),
      r.playerId = some pid → r.entityType = "player" →
      cutoff ≤ r.effectiveFrom → r.signalType = "injuries_status" →
      r.valueText = some v → v ≠ "" → v ≠ "fit" →
      getWhatChanged [r] pid cutoff =
        [{ signalType := "injuries_status",
           description := "New injury status: " ++ v,
           oldValue := none, newValue := some (SigVal.text v),
           changePercent := none, severity := "alert",
           observedAt := r.observedAt }]) := by
  have hcfg : changeThresholds "injuries_status" =
      some { emptyChangeConfig with
             anyChange := true,
             sevAny := fun _ new => if new ≠ SigVal.text "fit" then "alert" else "info" } := by
    rfl
  constructor
  · constructor
    · intro hfit
      unfold detectDelta
      rw [hcfg, hold, hnew]
      simp only [emptyChangeConfig, if_pos rfl]
      rw [if_pos hne, if_pos hfit]
      exact if_pos trivial
    · intro hfit
      unfold detectDelta
      rw [hcfg, hold, hnew]
      simp only [emptyChangeConfig, if_pos rfl]
      rw [if_pos hne, if_neg (not_not_intro hfit)]
      exact if_pos trivial
  · intro r pid cutoff v h1 h2 h3 h4 h5 h6 h7
    simp only [getWhatChanged]
    have hfilt : ([r].filter (fun x =>
        decide (x.playerId = some pid) && decide (x.entityType = "player") &&
          decide (cutoff ≤ x.effectiveFrom))) = [r] := by
      simp [h1, h2, h3]
    rw [hfilt]
    have hsorted : stableSortBy (fun a b : SignalRow =>
        decide (a.signalType < b.signalType) ||
          (decide (a.signalType = b.signalType) && decide (a.effectiveFrom < b.effectiveFrom)))
        [r] = [r] := rfl
    rw [hsorted]
    have htypes : dedupFirst ([r].map (fun x => x.signalType)) = [r.signalType] := rfl
    rw [htypes]
    have hgroup : ([r].filter (fun x => decide (x.signalType = r.signalType))) = [r] := by
      simp
    simp only [List.filterMap_cons, List.filterMap_nil, hgroup]
    rw [h4]
    simp only [List.length_cons, List.length_nil, List.head?_cons, h5]
    rw [if_neg (by simp), if_pos (by simp), if_pos ⟨h6, h7⟩]
    rfl

/-- C7 witness: a concrete change from fit to injured produces an alert,
and a lone doubtful row produces one alert. -/
theorem whatChanged_injuries_witness :
    detectDelta "injuries_status"
      { entityType := "player", playerId := some 1, clubId := none,
        signalType := "injuries_status", valueNum := none,
        valueText := some "fit", valueJson := none,
        observedAt := 1, effectiveFrom := 1, effectiveTo := none }
      { entityType := "player", playerId := some 1, clubId := none,
        signalType := "injuries_status", valueNum := none,
        valueText := some "injured", valueJson := none,
        observedAt := 2, effectiveFrom := 2, effectiveTo := none } =
      some { signalType := "injuries_status",
             description := formatChangeDescription "injuries_status"
               (SigVal.text "fit") (SigVal.text "injured"),
             oldValue := some (SigVal.text "fit"),
             newValue := some (SigVal.text "injured"),
             changePercent := none, severity := "alert", observedAt := 2 } :=
  ((whatChanged_injuries
    { entityType := "player", playerId := some 1, clubId := none,
      signalType := "injuries_status", valueNum := none,
      valueText := some "fit", valueJson := none,
      observedAt := 1, effectiveFrom := 1, effectiveTo := none }
    { entityType := "player", playerId := some 1, clubId := none,
      signalType := "injuries_status", valueNum := none,
      valueText := some "injured", valueJson := none,
      observedAt := 2, effectiveFrom := 2, effectiveTo := none }
    (SigVal.text "fit") (SigVal.text "injured") rfl rfl (by decide)).1.1 (by decide))

/-- C7 counterexample: a change between two non-fit values (injured to
doubtful) is classified alert by the code because the new value is not
fit, contradicting the claimed severity info for transitions within
non-fit values. -/
theorem whatChanged_nonfit_severity_counterexample :
    ((detectDelta "injuries_status"
      { entityType := "player", playerId := some 1, clubId := none,
        signalType := "injuries_status", valueNum := none,
        valueText := some "injured", valueJson := none,
        observedAt := 1, effectiveFrom := 1, effectiveTo := none }
      { entityType := "player", playerId := some 1, clubId := none,
        signalType := "injuries_status", valueNum := none,
        valueText := some "doubtful", valueJson := none,
        observedAt := 2, effectiveFrom := 2, effectiveTo := none }).map
      (fun d => d.severity)) = some "alert" ∧
    some "alert" ≠ some "info" := by
  constructor
  · rfl
  · decide

/-! ## C8 theorems -/

/-- C8 (amended): when the assembled training frame has fewer rows than
the configured minimum, run_model_train returns a failed result with a
message and registers no ModelVersion row at all (in particular none
with status failed); a ModelVersion row, always carrying status
completed, is registered only by a successful run. -/
theorem runModelTrain_registration {α : Type} (df : List α) (minTrainingSamples : Nat)
    (modelName modelVersion : String) (horizonDays : Int) (stepsSucceed : Bool) :
    (df.length < minTrainingSamples →
      (runModelTrain df minTrainingSamples modelName modelVersion horizonDays stepsSucceed).1.status = "failed" ∧
      (runModelTrain df minTrainingSamples modelName modelVersion horizonDays stepsSucceed).1.errorMsg ≠ none ∧
      (runModelTrain df minTrainingSamples modelName modelVersion horizonDays stepsSucceed).2 = []) ∧
    (∀ row ∈ (runModelTrain df minTrainingSamples modelName modelVersion horizonDays stepsSucceed).2,
      row.status = "completed") ∧
    ((runModelTrain df minTrainingSamples modelName modelVersion horizonDays stepsSucceed).2 ≠ [] →
      (runModelTrain df minTrainingSamples modelName modelVersion horizonDays stepsSucceed).1.status = "completed") := by
  unfold runModelTrain registerModelVersion
  split_ifs with h1 h2
  · simp
  · simp
    omega
  · simp

/-- C8 witness: a three-row frame against the default minimum of 50
fails with a message and registers nothing. -/
theorem runModelTrain_registration_witness :
    (runModelTrain [0, 1, 2] 50 "transfer_xgb_90d" "v20250101_000000" 90 true).1.status = "failed" ∧
    (runModelTrain [0, 1, 2] 50 "transfer_xgb_90d" "v20250101_000000" 90 true).1.errorMsg ≠ none ∧
    (runModelTrain [0, 1, 2] 50 "transfer_xgb_90d" "v20250101_000000" 90 true).2 = [] :=
  (runModelTrain_registration [0, 1, 2] 50 "transfer_xgb_90d" "v20250101_000000" 90 true).1
    (by decide)

/-- C8 counterexample: the insufficient-samples run fails, but contrary
to the claim no ModelVersion row with status failed (or any row) is
registered. -/
theorem runModelTrain_no_failed_row_counterexample :
    (runModelTrain [0, 1, 2] 50 "transfer_xgb_90d" "v20250101_000000" 90 true).1.status = "failed" ∧
    ¬ ∃ row ∈ (runModelTrain [0, 1, 2] 50 "transfer_xgb_90d" "v20250101_000000" 90 true).2,
        row.status = "failed" := by
  decide

/-! ## C9 theorems -/

theorem sum_map_div (l : List ℚ) (c : ℚ) : (l.map (fun x => x / c)).sum = l.sum / c := by
  induction l with
  | nil => simp
  | cons x xs ih => simp [ih, add_div]

theorem sum_map_le_shift (l : List ℚ) (f g : ℚ → ℚ) (c : ℚ)
    (h : ∀ x ∈ l, f x ≤ g x + c) : (l.map f).sum ≤ (l.map g).sum + l.length * c := by
  induction l with
  | nil => simp
  | cons x xs ih =>
      simp only [List.map_cons, List.sum_cons, List.length_cons]
      have h1 := h x (by simp)
      have h2 := ih (fun y hy => h y (by simp [hy]))
      push_cast
      linarith

/-- A list of rationals summing to a positive total has its rounded
shares summing to at most 1 + length/20000. -/
theorem sum_pyRound_shares_le (l : List ℚ) (total : ℚ) (htot : 0 < total)
    (hsum : l.sum = total) :
    (l.map (fun x => pyRound 4 (x / total))).sum ≤ 1 + (l.length : ℚ) / 20000 := by
  have hb : ∀ x ∈ l, pyRound 4 (x / total) ≤ x / total + 1 / 20000 := by
    intro x _
    have h1 := pyRound_le 4 (x / total)
    have h2 : (1 : ℚ) / (2 * 10 ^ 4) = 1 / 20000 := by norm_num
    rw [h2] at h1
    exact h1
  have h3 := sum_map_le_shift l (fun x => pyRound 4 (x / total)) (fun x => x / total)
    (1 / 20000) hb
  rw [sum_map_div, hsum, div_self (ne_of_gt htot)] at h3
  calc (l.map (fun x => pyRound 4 (x / total))).sum
      ≤ 1 + (l.length : ℚ) * (1 / 20000) := h3
    _ = 1 + (l.length : ℚ) / 20000 := by ring

/-- Every raw rounded contribution is non-negative. -/
theorem driverCandidates_nonneg (featureImportances : List (String × ℚ))
    (featureNames : List String) (normalized : List ℚ) :
    ∀ q ∈ driverCandidates featureImportances featureNames normalized, 0 ≤ q.2 := by
  intro q hq
  unfold driverCandidates at hq
  rw [List.mem_filterMap] at hq
  obtain ⟨pr, _, hpr⟩ := hq
  by_cases hpos : 0 < ((featureImportances.lookup pr.1).getD 0) * pr.2
  · rw [if_pos hpos] at hpr
    injection hpr with hpr
    subst hpr
    exact pyRound_nonneg 4 _ (le_of_lt hpos)
  · rw [if_neg hpos] at hpr
    cases hpr

/-- The retained top contributions are non-negative. -/
theorem driverTop_nonneg (featureImportances : List (String × ℚ))
    (featureNames : List String) (normalized : List ℚ) (topN : Nat) :
    ∀ q ∈ driverTop featureImportances featureNames normalized topN, 0 ≤ q.2 := by
  intro q hq
  unfold driverTop at hq
  have h1 := List.mem_of_mem_take hq
  rw [mem_stableSortBy] at h1
  exact driverCandidates_nonneg featureImportances featureNames normalized q h1

/-- Every driver value returned by `compute_driver_contributions` is
non-negative. -/
theorem computeDriverContributions_nonneg (featureValues : List (String × Option ℚ))
    (featureNames : List String) (featureImportances : List (String × ℚ)) (topN : Nat) :
    ∀ p ∈ computeDriverContributions featureValues featureNames featureImportances topN,
      0 ≤ p.2 := by
  intro p hp
  simp only [computeDriverContributions] at hp
  cases hmax : (driverValues featureValues featureNames).max? with
  | none => rw [hmax] at hp; simp at hp
  | some vmax =>
    cases hmin : (driverValues featureValues featureNames).min? with
    | none => rw [hmax, hmin] at hp; simp at hp
    | some vmin =>
        rw [hmax, hmin] at hp
        simp only at hp
        by_cases htot : 0 < ((driverTop featureImportances featureNames
            (if vmax ≠ vmin then (driverValues featureValues featureNames).map
              (fun v => (v - vmin) / (vmax - vmin))
             else (driverValues featureValues featureNames).map (fun _ => (1 : ℚ)/2))
            topN).map (fun p => p.2)).sum
        · rw [if_pos htot] at hp
          rw [List.mem_map] at hp
          obtain ⟨q, hq, hqe⟩ := hp
          subst hqe
          exact pyRound_nonneg 4 _ (div_nonneg
            (driverTop_nonneg featureImportances featureNames _ topN q hq)
            (le_of_lt htot))
        · rw [if_neg htot] at hp
          exact driverTop_nonneg featureImportances featureNames _ topN p hp

/-- The driver values of `compute_driver_contributions` sum to at most
1 + topN/20000: with a positive total the shares sum to exactly 1 before
the final rounding, and each of the at most topN roundings adds at most
1/20000; with a non-positive total the non-negative raw values are
returned unscaled and sum to at most 0. -/
theorem computeDriverContributions_sum_le (featureValues : List (String × Option ℚ))
    (featureNames : List String) (featureImportances : List (String × ℚ)) (topN : Nat) :
    (((computeDriverContributions featureValues featureNames featureImportances topN).map
      (fun p => p.2)).sum) ≤ 1 + (topN : ℚ) / 20000 := by
  have htopN : (0 : ℚ) ≤ (topN : ℚ) / 20000 := by positivity
  simp only [computeDriverContributions]
  cases hmax : (driverValues featureValues featureNames).max? with
  | none =>
      cases hmin : (driverValues featureValues featureNames).min? <;>
        simpa using (by linarith : (0 : ℚ) ≤ 1 + (topN : ℚ) / 20000)
  | some vmax =>
    cases hmin : (driverValues featureValues featureNames).min? with
    | none =>
        simpa using (by linarith : (0 : ℚ) ≤ 1 + (topN : ℚ) / 20000)
    | some vmin =>
        simp only
        by_cases htot : 0 < ((driverTop featureImportances featureNames
            (if vmax ≠ vmin then (driverValues featureValues featureNames).map
              (fun v => (v - vmin) / (vmax - vmin))
             else (driverValues featureValues featureNames).map (fun _ => (1 : ℚ)/2))
            topN).map (fun p => p.2)).sum
        · rw [if_pos htot]
          have hmm : ((driverTop featureImportances featureNames
              (if vmax ≠ vmin then (driverValues featureValues featureNames).map
                (fun v => (v - vmin) / (vmax - vmin))
               else (driverValues featureValues featureNames).map (fun _ => (1 : ℚ)/2))
              topN).map (fun p => (p.1, pyRound 4 (p.2 /
                ((driverTop featureImportances featureNames
                 (if vmax ≠ vmin then (driverValues featureValues featureNames).map
                   (fun v => (v - vmin) / (vmax - vmin))
                  else (driverValues featureValues featureNames).map (fun _ => (1 : ℚ)/2))
                 topN).map (fun p => p.2)).sum)))).map (fun p => p.2) =
              ((driverTop featureImportances featureNames
                (if vmax ≠ vmin then (driverValues featureValues featureNames).map
                  (fun v => (v - vmin) / (vmax - vmin))
                 else (driverValues featureValues featureNames).map (fun _ => (1 : ℚ)/2))
                topN).map (fun p => p.2)).map (fun x => pyRound 4 (x /
                  ((driverTop featureImportances featureNames
                   (if vmax ≠ vmin then (driverValues featureValues featureNames).map
                     (fun v => (v - vmin) / (vmax - vmin))
                    else (driverValues featureValues featureNames).map (fun _ => (1 : ℚ)/2))
                   topN).map (fun p => p.2)).sum)) := by
            rw [List.map_map, List.map_map]
            rfl
          rw [hmm]
          have hshare := sum_pyRound_shares_le ((driverTop featureImportances featureNames
              (if vmax ≠ vmin then (driverValues featureValues featureNames).map
                (fun v => (v - vmin) / (vmax - vmin))
               else (driverValues featureValues featureNames).map (fun _ => (1 : ℚ)/2))
              topN).map (fun p => p.2)) _ htot rfl
          have hlen : (((driverTop featureImportances featureNames
              (if vmax ≠ vmin then (driverValues featureValues featureNames).map
                (fun v => (v - vmin) / (vmax - vmin))
               else (driverValues featureValues featureNames).map (fun _ => (1 : ℚ)/2))
              topN).map (fun p => p.2)).length : ℚ) ≤ (topN : ℚ) := by
            rw [List.length_map]
            have := List.length_take_le topN (stableSortBy (fun a b => decide (b.2 < a.2))
              (driverCandidates featureImportances featureNames
                (if vmax ≠ vmin then (driverValues featureValues featureNames).map
                  (fun v => (v - vmin) / (vmax - vmin))
                 else (driverValues featureValues featureNames).map (fun _ => (1 : ℚ)/2))))
            unfold driverTop
            exact_mod_cast this
          calc _ ≤ 1 + (((driverTop featureImportances featureNames
              (if vmax ≠ vmin then (driverValues featureValues featureNames).map
                (fun v => (v - vmin) / (vmax - vmin))
               else (driverValues featureValues featureNames).map (fun _ => (1 : ℚ)/2))
              topN).map (fun p => p.2)).length : ℚ) / 20000 := hshare
            _ ≤ 1 + (topN : ℚ) / 20000 := by
                have : (((driverTop featureImportances featureNames
                  (if vmax ≠ vmin then (driverValues featureValues featureNames).map
                    (fun v => (v - vmin) / (vmax - vmin))
                   else (driverValues featureValues featureNames).map (fun _ => (1 : ℚ)/2))
                  topN).map (fun p => p.2)).length : ℚ) / 20000 ≤ (topN : ℚ) / 20000 := by
                  apply div_le_div_of_nonneg_right hlen
                  norm_num
                linarith
        · rw [if_neg htot]
          push_neg at htot
          exact le_trans htot (by linarith)

/-- The heuristic probability stays within [1/20, 19/20] for any noise
draw inside the np.random.uniform(-0.05, 0.05) range. -/
theorem heuristicProbability_bounds (contractMonthsF marketValueF sameLeagueF : Option ℚ)
    (noise : ℚ) (hn1 : -(1/20) ≤ noise) (hn2 : noise ≤ 1/20) :
    1/20 ≤ heuristicProbability contractMonthsF marketValueF sameLeagueF noise ∧
      heuristicProbability contractMonthsF marketValueF sameLeagueF noise ≤ 19/20 := by
  unfold heuristicProbability
  constructor
  · apply le_min
    · norm_num
    · split_ifs <;> linarith
  · exact min_le_left _ _

/-- C9 (amended): every snapshot built by the heuristic scorer path
satisfies the persisted CHECK constraints -- probability in [0, 1],
horizon_days > 0, window_end > window_start -- and its drivers_json
values are non-negative with a sum of at most 1 + 1/4000 (the shares sum
to exactly 1 before the final four-decimal rounding; the rounded sum can
exceed 1 by at most 5 x 1/20000, see the counterexample). -/
theorem predictionSnapshot_invariants (playerId : Nat) (fromClubId : Option Nat)
    (toClubId : Nat) (horizonDays : Int) (asOfDate : Int)
    (features : List (String × Option ℚ)) (featureImportances : List (String × ℚ))
    (noise : ℚ) (hn1 : -(1/20) ≤ noise) (hn2 : noise ≤ 1/20) (hH : 0 < horizonDays) :
    predictionRowChecks (mkHeuristicSnapshot playerId fromClubId toClubId horizonDays
      asOfDate features featureImportances noise) ∧
    (∀ p ∈ (mkHeuristicSnapshot playerId fromClubId toClubId horizonDays asOfDate
      features featureImportances noise).drivers, 0 ≤ p.2) ∧
    (((mkHeuristicSnapshot playerId fromClubId toClubId horizonDays asOfDate
      features featureImportances noise).drivers.map (fun p => p.2)).sum ≤ 1 + 1/4000) := by
  have hhp := heuristicProbability_bounds
    (features.lookup "contract_months_remaining" |>.getD none)
    (features.lookup "market_value" |>.getD none)
    (features.lookup "same_league" |>.getD none) noise hn1 hn2
  refine ⟨⟨?_, ?_, hH, ?_⟩, ?_, ?_⟩
  · exact pyRound_nonneg 4 _ (by linarith [hhp.1])
  · have := pyRound_le 4 (heuristicProbability
      (features.lookup "contract_months_remaining" |>.getD none)
      (features.lookup "market_value" |>.getD none)
      (features.lookup "same_league" |>.getD none) noise)
    have h2 : (1 : ℚ) / (2 * 10 ^ 4) = 1 / 20000 := by norm_num
    rw [h2] at this
    show pyRound 4 _ ≤ 1
    linarith [hhp.2]
  · show asOfDate < asOfDate + horizonDays
    omega
  · exact computeDriverContributions_nonneg features (features.map (fun p => p.1))
      featureImportances 5
  · have := computeDriverContributions_sum_le features (features.map (fun p => p.1))
      featureImportances 5
    have h5 : ((5 : Nat) : ℚ) / 20000 = 1/4000 := by norm_num
    rw [h5] at this
    exact this

/-- C9 witness: a concrete heuristic snapshot at horizon 90 with zero
noise satisfies the invariants. -/
theorem predictionSnapshot_invariants_witness :
    predictionRowChecks (mkHeuristicSnapshot 1 (some 2) 3 90 0
      [("contract_months_remaining", some 6), ("same_league", some 1)] [] 0) ∧
    (∀ p ∈ (mkHeuristicSnapshot 1 (some 2) 3 90 0
      [("contract_months_remaining", some 6), ("same_league", some 1)] [] 0).drivers,
      0 ≤ p.2) ∧
    (((mkHeuristicSnapshot 1 (some 2) 3 90 0
      [("contract_months_remaining", some 6), ("same_league", some 1)] [] 0).drivers.map
      (fun p => p.2)).sum ≤ 1 + 1/4000) :=
  predictionSnapshot_invariants 1 (some 2) 3 90 0
    [("contract_months_remaining", some 6), ("same_league", some 1)] [] 0
    (by norm_num) (by norm_num) (by norm_num)

/-- C9 counterexample: with importances 0.0004, 0.0008, 0.0009 on three
features tied at the per-vector maximum (and the rest of the mass on the
minimal feature, contributing zero), the rounded shares are 0.1905,
0.3810 and 0.4286, which sum to 1.0001 > 1 -- the claimed bound
"summing to at most 1" fails. -/
theorem driversSum_exceeds_one_counterexample :
    ((computeDriverContributions
      [("a", some 5), ("b", some 5), ("c", some 5), ("d", some 0)]
      ["a", "b", "c", "d"]
      [("a", 4/10000), ("b", 8/10000), ("c", 9/10000), ("d", 9979/10000)] 5).map
      (fun p => p.2)).sum = 10001/10000 ∧ ¬ ((10001 : ℚ)/10000 ≤ 1) := by
  constructor
  · have hvals : driverValues
        [("a", some (5:ℚ)), ("b", some 5), ("c", some 5), ("d", some 0)]
        ["a", "b", "c", "d"] = [5, 5, 5, 0] := by decide
    have hmax : ([5, 5, 5, 0] : List ℚ).max? = some 5 := by
      norm_num [List.max?, List.foldl, max_def]
    have hmin : ([5, 5, 5, 0] : List ℚ).min? = some 0 := by
      norm_num [List.min?, List.foldl, min_def]
    have hla : List.lookup "a"
        [("a", (1:ℚ)/2500), ("b", 1/1250), ("c", 9/10000), ("d", 9979/10000)]
        = some (1/2500) := rfl
    have hlb : List.lookup "b"
        [("a", (1:ℚ)/2500), ("b", 1/1250), ("c", 9/10000), ("d", 9979/10000)]
        = some (1/1250) := rfl
    have hlc : List.lookup "c"
        [("a", (1:ℚ)/2500), ("b", 1/1250), ("c", 9/10000), ("d", 9979/10000)]
        = some (9/10000) := rfl
    have hld : List.lookup "d"
        [("a", (1:ℚ)/2500), ("b", 1/1250), ("c", 9/10000), ("d", 9979/10000)]
        = some (9979/10000) := rfl
    have hp1 : pyRound 4 ((1:ℚ)/2500) = 1/2500 := by
      norm_num [pyRound, halfEvenInt]
    have hp2 : pyRound 4 ((1:ℚ)/1250) = 1/1250 := by
      norm_num [pyRound, halfEvenInt]
    have hp3 : pyRound 4 ((9:ℚ)/10000) = 9/10000 := by
      norm_num [pyRound, halfEvenInt]
    have hcand : driverCandidates
        [("a", (1:ℚ)/2500), ("b", 1/1250), ("c", 9/10000), ("d", 9979/10000)]
        ["a", "b", "c", "d"] [1, 1, 1, 0]
        = [("a", 1/2500), ("b", 1/1250), ("c", 9/10000)] := by
      simp only [driverCandidates, List.zip_cons_cons, List.zip_nil_right,
        List.zip_nil_left, List.filterMap_cons, List.filterMap_nil,
        hla, hlb, hlc, hld, Option.getD_some]
      norm_num [hp1, hp2, hp3]
    have hsort : stableSortBy (fun a b : String × ℚ => decide (b.2 < a.2))
        [("a", (1:ℚ)/2500), ("b", 1/1250), ("c", 9/10000)]
        = [("c", 9/10000), ("b", 1/1250), ("a", 1/2500)] := by
      norm_num [stableSortBy, insOrd]
    have hq1 : pyRound 4 ((3:ℚ)/7) = 2143/5000 := by
      norm_num [pyRound, halfEvenInt]
    have hq2 : pyRound 4 ((8:ℚ)/21) = 381/1000 := by
      norm_num [pyRound, halfEvenInt]
    have hq3 : pyRound 4 ((4:ℚ)/21) = 381/2000 := by
      norm_num [pyRound, halfEvenInt]
    simp only [computeDriverContributions, hvals, hmax, hmin, driverTop]
    norm_num [hcand, hsort, hq1, hq2, hq3]
  · norm_num

/-! ## C4: the bulk feature build -/

/-- C4: the feature payload upserted under a given (player, candidate
club, as_of) key is independent of the two ORDER BY RANDOM() draws of
`get_candidate_clubs`: whenever two bulk-build runs over the same store
and as_of (under any reorderings of the random pools) both emit a row
for the same player and candidate club, the feature vectors coincide.
Re-running is therefore idempotent per shared key; the key set itself is
not reproducible (see the counterexample). -/
theorem runFeatureBuild_payload_deterministic
    (s : Store) (asOf : Int) (maxCandidates : Nat)
    (rngA rngB rngC rngD : List Club → List Club)
    (e1 e2 : Nat × Nat × FeatureVec)
    (hnd : (s.players.map (fun p => p.id)).Nodup)
    (h1 : e1 ∈ runFeatureBuild s asOf maxCandidates rngA rngB)
    (h2 : e2 ∈ runFeatureBuild s asOf maxCandidates rngC rngD)
    (hpid : e1.1 = e2.1) (hclub : e1.2.1 = e2.2.1) :
    e1.2.2 = e2.2.2 := by
  simp only [runFeatureBuild, List.mem_flatMap] at h1 h2
  obtain ⟨p1, hp1, he1⟩ := h1
  obtain ⟨p2, hp2, he2⟩ := h2
  rw [List.mem_filter] at hp1 hp2
  cases hc1 : p1.currentClubId with
  | none => rw [hc1] at he1; simp at he1
  | some f1 =>
    cases hc2 : p2.currentClubId with
    | none => rw [hc2] at he2; simp at he2
    | some f2 =>
      rw [hc1] at he1
      rw [hc2] at he2
      rw [List.mem_map] at he1 he2
      obtain ⟨t1, ht1, he1⟩ := he1
      obtain ⟨t2, ht2, he2⟩ := he2
      have hid12 : p1.id = p2.id := by
        rw [← he1, ← he2] at hpid
        exact hpid
      have hpp : p1 = p2 := List.inj_on_of_nodup_map hnd hp1.1 hp2.1 hid12
      have hff : f1 = f2 := by
        rw [hpp] at hc1
        rw [hc1] at hc2
        exact Option.some.inj hc2
      have htt : t1 = t2 := by
        rw [← he1, ← he2] at hclub
        exact hclub
      rw [← he1, ← he2]
      rw [hpp, hff, htt]

/-- C4 witness: over the demo store two runs with different fill-pool
orderings both emit the key (player 1, club 2), and the theorem yields
equal payloads for it. -/
theorem runFeatureBuild_payload_deterministic_witness :
    (demoFeatureStore.players.map (fun p => p.id)).Nodup ∧
    ((1, 2, buildFeatureVector demoFeatureStore 1 1 2 0) ∈
      runFeatureBuild demoFeatureStore 0 1 id id) ∧
    ((1, 2, buildFeatureVector demoFeatureStore 1 1 2 0) ∈
      runFeatureBuild demoFeatureStore 0 1 id List.reverse) ∧
    ((1, 2, buildFeatureVector demoFeatureStore 1 1 2 0) : Nat × Nat × FeatureVec).2.2
      = ((1, 2, buildFeatureVector demoFeatureStore 1 1 2 0) : Nat × Nat × FeatureVec).2.2 := by
  have hrun1 : runFeatureBuild demoFeatureStore 0 1 id id
      = [(1, 2, buildFeatureVector demoFeatureStore 1 1 2 0)] := rfl
  have hrun2 : runFeatureBuild demoFeatureStore 0 1 id List.reverse
      = [(1, 2, buildFeatureVector demoFeatureStore 1 1 2 0)] := rfl
  have h1 : (1, 2, buildFeatureVector demoFeatureStore 1 1 2 0) ∈
      runFeatureBuild demoFeatureStore 0 1 id id := by
    rw [hrun1]; exact List.mem_singleton.mpr rfl
  have h2 : (1, 2, buildFeatureVector demoFeatureStore 1 1 2 0) ∈
      runFeatureBuild demoFeatureStore 0 1 id List.reverse := by
    rw [hrun2]; exact List.mem_singleton.mpr rfl
  have hnd : (demoFeatureStore.players.map (fun p => p.id)).Nodup := by decide
  exact ⟨hnd, h1, h2,
    runFeatureBuild_payload_deterministic demoFeatureStore 0 1 id id id List.reverse
      _ _ hnd h1 h2 rfl rfl⟩

/-- C4 counterexample: the bulk build is not idempotent as a whole,
because the upserted key set depends on the unseeded ORDER BY RANDOM()
draws: with max_candidates 1 and a two-element tier-one pool, one
ordering builds (player 1, club 2) and the reverse ordering builds
(player 1, club 3). -/
theorem runFeatureBuild_rng_dependent_counterexample :
    ((runFeatureBuild demoFeatureStore 0 1 id id).map (fun e => (e.1, e.2.1))
      = [(1, 2)]) ∧
    ((runFeatureBuild demoFeatureStore 0 1 List.reverse id).map (fun e => (e.1, e.2.1))
      = [(1, 3)]) ∧
    ([(1, 2)] : List (Nat × Nat)) ≠ [(1, 3)] :=
  ⟨rfl, rfl, by decide⟩

/-! ## C5: candidate generation determinism -/

/-- Filtering with a predicate that rejects every appended candidate
undoes a `dedupeAdd`. -/
theorem dedupeAdd_filter_not (p : CandidateClub → Bool) (new acc : List CandidateClub)
    (h : ∀ c ∈ new, p c = false) :
    (dedupeAdd acc new).filter p = acc.filter p := by
  induction new generalizing acc with
  | nil => rfl
  | cons c cs ih =>
    have hstep : dedupeAdd acc (c :: cs)
        = dedupeAdd (if acc.any (fun a => decide (a.clubId = c.clubId)) then acc
            else acc ++ [c]) cs := rfl
    rw [hstep]
    rw [ih _ (fun d hd => h d (List.mem_cons_of_mem _ hd))]
    by_cases hmem : acc.any (fun a => decide (a.clubId = c.clubId))
    · rw [if_pos hmem]
    · rw [if_neg hmem, List.filter_append]
      have hc : p c = false := h c (List.mem_cons_self c cs)
      simp [List.filter_cons, hc]

/-- Every candidate produced by the random source is tagged with source
"random". -/
theorem getRandomCandidates_source (s : Store) (playerId currentClubId : Nat)
    (existingIds : List Nat) (config : CandidateConfig)
    (rng : List Club → List Club) :
    ∀ c ∈ getRandomCandidates s playerId currentClubId existingIds config rng,
      c.source = "random" := by
  intro c hc
  simp only [getRandomCandidates, List.mem_map] at hc
  obtain ⟨d, _, hd⟩ := hc
  rw [← hd]

/-- C5: the non-random part of the candidate set is deterministic:
restricted to candidates whose source is not "random", the assembled
candidate list is the same for any two orderings of the random pool.
The random source itself is not reproducible (the ORDER BY RANDOM() draw
is unseeded), so the full set is rng-dependent -- see the
counterexample. -/
theorem candidatesWithRandom_nonrandom_rng_independent
    (s : Store) (playerId currentClubId : Nat) (asOf : Int)
    (config : CandidateConfig) (rng rng' : List Club → List Club) :
    (candidatesWithRandom s playerId currentClubId asOf config rng).filter
        (fun c => decide (c.source ≠ "random"))
      = (candidatesWithRandom s playerId currentClubId asOf config rng').filter
        (fun c => decide (c.source ≠ "random")) := by
  have hsrc : ∀ (r : List Club → List Club) (c : CandidateClub),
      c ∈ getRandomCandidates s playerId currentClubId
        ((candidatesBeforeRandom s playerId currentClubId asOf config).map
          (fun c => c.clubId)) config r →
      (fun c : CandidateClub => decide (c.source ≠ "random")) c = false := by
    intro r c hc
    have hs := getRandomCandidates_source s playerId currentClubId _ config r c hc
    simp [hs]
  simp only [candidatesWithRandom]
  rw [dedupeAdd_filter_not _ _ _ (fun c hc => hsrc rng c hc),
      dedupeAdd_filter_not _ _ _ (fun c hc => hsrc rng' c hc)]

/-- C5 counterexample: running candidate generation twice over the
unchanged store with different random-pool orderings yields different
candidate sets: with all deterministic sources empty, one ordering
selects clubs 2..6 and the reverse ordering clubs 9..5, so the random
source is not derived from (player_id, as_of) or any fixed seed. -/
theorem candidatesWithRandom_rng_dependent_counterexample :
    ((candidatesWithRandom demoCandidateStore 1 1 0 defaultCandidateConfig id).map
      (fun c => c.clubId) = [2, 3, 4, 5, 6]) ∧
    ((candidatesWithRandom demoCandidateStore 1 1 0 defaultCandidateConfig
        List.reverse).map (fun c => c.clubId) = [9, 8, 7, 6, 5]) ∧
    ([2, 3, 4, 5, 6] : List Nat) ≠ [9, 8, 7, 6, 5] :=
  ⟨rfl, rfl, by decide⟩

end TransferLens
